import Mathlib

/-!
# Verification of the Orca scheduling and orchestration engine

Shallow embedding of the core scheduling/orchestration code:

* `src/analysis/dependency_analyzer.py` — dependency extraction, graph
  validation, Kahn layering (`generate_execution_layers`),
* `src/models/execution_graph.py` — `DependencyGraph.validate_acyclic`,
* `src/execution/parallel_orchestrator.py` — session layer loop,
  per-task execution, quality-gate downgrade, final result assembly,
* `src/execution/agent_coordinator.py` — worker pool acquisition,
* `src/models/quality_models.py` — quality validations and scoring,
* `src/models/result_models.py` — task / execution results.

Python floats appearing in scores and thresholds are modelled as exact
rationals (`ℚ`); the arithmetic involved (comparisons against decimal
constants, sums divided by small counts) is exact at these magnitudes.
Python dicts are modelled as insertion-ordered association lists, and
Python sets of task ids as lists without duplicates.
-/

namespace Orca

/-! ## Worker pool (`agent_coordinator.py`) -/

/-- `AgentState` enum (`agent_coordinator.py` lines 20-27). -/
inductive AgentState where
  | initializing
  | idle
  | busy
  | paused
  | error
  | shutdown
deriving DecidableEq, Repr

/-- The fields of `ExecutionAgent` that worker acquisition reads
(`agent_coordinator.py` lines 61-119): identifier, state, the set of
currently running task ids (`current_tasks`), and the declared capacity
`capabilities.max_concurrent_tasks`. -/
structure ExecutionAgentM where
  agent_id : String
  state : AgentState
  current_tasks : List String
  max_concurrent_tasks : Nat
deriving DecidableEq, Repr

/-- `ExecutionAgent.is_available` (`agent_coordinator.py` lines 108-113). -/
def ExecutionAgentM.is_available (a : ExecutionAgentM) : Bool :=
  a.state == AgentState.idle && a.current_tasks.length < a.max_concurrent_tasks

/-- `ExecutionAgent.get_load_factor` (`agent_coordinator.py` lines 115-119). -/
def ExecutionAgentM.get_load_factor (a : ExecutionAgentM) : ℚ :=
  if a.max_concurrent_tasks = 0 then 1
  else (a.current_tasks.length : ℚ) / (a.max_concurrent_tasks : ℚ)

/-- Python's `min(xs, key=f)` over a nonempty list given as head and tail:
returns the first element attaining the minimal key (later elements replace
the current best only when strictly smaller). -/
def pythonMinBy (f : ExecutionAgentM → ℚ) (x : ExecutionAgentM)
    (xs : List ExecutionAgentM) : ExecutionAgentM :=
  xs.foldl (fun best a => if f a < f best then a else best) x

/-- `AgentCoordinator._find_best_agent` (`agent_coordinator.py` lines 541-553):
filter the pool to available agents, return `None` when empty, otherwise the
agent with the lowest load factor. -/
def find_best_agent (agents : List ExecutionAgentM) : Option ExecutionAgentM :=
  match agents.filter ExecutionAgentM.is_available with
  | [] => none
  | a :: rest => some (pythonMinBy ExecutionAgentM.get_load_factor a rest)

/-- `AgentCoordinator.acquire_agent` (`agent_coordinator.py` lines 415-440),
the body executed under `self._coordination_lock`.  Selection and the
pool-exhaustion `AgentCoordinationError` are modelled; the
`agent_assignment` / `agent_sessions` bookkeeping touches no agent field and
is omitted.  Note the function mutates no field of any agent. -/
def acquire_agent (agents : List ExecutionAgentM) : Except String ExecutionAgentM :=
  match find_best_agent agents with
  | none => Except.error "No agents available for task execution"
  | some best => Except.ok best

/-- The opening of `DevelopmentAgent.execute_task`
(`agent_coordinator.py` lines 142-143): the agent becomes busy and the task
id is added to `current_tasks` — with no capacity check. -/
def begin_exec (agents : List ExecutionAgentM) (aid tid : String) :
    List ExecutionAgentM :=
  agents.map fun a =>
    if a.agent_id == aid then
      { a with state := AgentState.busy, current_tasks := a.current_tasks ++ [tid] }
    else a

/-- The `finally` block of `DevelopmentAgent.execute_task`
(`agent_coordinator.py` lines 189-191): the agent returns to idle and the
task id is discarded from `current_tasks`. -/
def end_exec (agents : List ExecutionAgentM) (aid tid : String) :
    List ExecutionAgentM :=
  agents.map fun a =>
    if a.agent_id == aid then
      { a with state := AgentState.idle,
               current_tasks := a.current_tasks.filter (fun t => !(t == tid)) }
    else a

/-- A pool of one development agent (`DevelopmentAgent` declares
`max_concurrent_tasks=1`, `agent_coordinator.py` line 130), as built by
`initialize_agent_pool` with `max_agents=1`. -/
def singleAgentPool : List ExecutionAgentM :=
  [⟨"dev_agent_0", AgentState.idle, [], 1⟩]

/-! ## Quality models (`quality_models.py`) -/

/-- `QualityGateStatus` enum (`quality_models.py` lines 14-20). -/
inductive QualityGateStatus where
  | passed
  | failed
  | warning
  | skipped
  | error
deriving DecidableEq, Repr

/-- The fields of `TDDValidation` read by `meets_requirements` and by the
overall scoring (`quality_models.py` lines 23-44). -/
structure TDDValidation where
  status : QualityGateStatus
  test_coverage_percentage : ℚ
  minimum_coverage_required : ℚ
  test_count : Nat
  passing_tests : Nat
  failing_tests : Nat
  red_green_refactor_cycle_followed : Bool
deriving DecidableEq, Repr

/-- `TDDValidation.meets_requirements` (`quality_models.py` lines 60-67). -/
def TDDValidation.meets_requirements (v : TDDValidation) : Bool :=
  decide (v.test_coverage_percentage ≥ v.minimum_coverage_required) &&
  v.failing_tests == 0 &&
  decide (v.test_count > 0) &&
  v.red_green_refactor_cycle_followed

/-- The fields of `SecurityValidation` read by
`meets_security_requirements` and scoring (`quality_models.py` lines 75-94). -/
structure SecurityValidation where
  status : QualityGateStatus
  vulnerability_scan_passed : Bool
  input_validation_implemented : Bool
  secure_coding_practices_followed : Bool
  high_severity_vulnerabilities : Nat
  medium_severity_vulnerabilities : Nat
  low_severity_vulnerabilities : Nat
deriving DecidableEq, Repr

/-- `SecurityValidation.meets_security_requirements`
(`quality_models.py` lines 104-111). -/
def SecurityValidation.meets_security_requirements (v : SecurityValidation) : Bool :=
  v.high_severity_vulnerabilities == 0 &&
  v.vulnerability_scan_passed &&
  v.input_validation_implemented &&
  v.secure_coding_practices_followed

/-- The fields of `PerformanceValidation` read by
`calculate_performance_score` (`quality_models.py` lines 123-147). -/
structure PerformanceValidation where
  status : QualityGateStatus
  benchmark_executed : Bool
  execution_time_seconds : Option ℚ
  memory_usage_mb : Option ℚ
  performance_requirements_met : Bool
deriving DecidableEq, Repr

/-- Execution-time contribution to `score_factors`
(`quality_models.py` lines 158-167): empty when no measurement. -/
def execTimeFactor : Option ℚ → List ℚ
  | none => []
  | some t =>
      [if t ≤ 1 then 1 else if t ≤ 10 then 0.8 else if t ≤ 60 then 0.6 else 0.4]

/-- Memory contribution to `score_factors`
(`quality_models.py` lines 169-178). -/
def memoryFactor : Option ℚ → List ℚ
  | none => []
  | some m =>
      [if m ≤ 100 then 1 else if m ≤ 500 then 0.8 else if m ≤ 1000 then 0.6 else 0.4]

/-- `PerformanceValidation.calculate_performance_score`
(`quality_models.py` lines 149-186): the mean of the collected score
factors, `0.5` when there are none (unreachable: the requirements-met
factor is always appended). -/
def PerformanceValidation.calculate_performance_score (v : PerformanceValidation) : ℚ :=
  let score_factors : List ℚ :=
    execTimeFactor v.execution_time_seconds ++
    memoryFactor v.memory_usage_mb ++
    [if v.performance_requirements_met then 1 else 0.5]
  if score_factors.length = 0 then 0.5
  else score_factors.sum / (score_factors.length : ℚ)

/-- The fields of `CodeQualityValidation` read by `calculate_quality_score`
and `meets_quality_standards` (`quality_models.py` lines 189-213). -/
structure CodeQualityValidation where
  status : QualityGateStatus
  static_analysis_passed : Bool
  type_checking_passed : Bool
  linting_passed : Bool
  complexity_score : Option ℚ
  documentation_coverage_percentage : Option ℚ
  code_style_violations : Nat
deriving DecidableEq, Repr

/-- Complexity addend of `calculate_quality_score`
(`quality_models.py` lines 237-246): missing measurement contributes 0. -/
def complexityAddend : Option ℚ → ℚ
  | none => 0
  | some c => if c ≤ 5 then 1 else if c ≤ 10 then 0.7 else if c ≤ 20 then 0.4 else 0.1

/-- Documentation-coverage addend of `calculate_quality_score`
(`quality_models.py` lines 248-257): missing measurement contributes 0. -/
def documentationAddend : Option ℚ → ℚ
  | none => 0
  | some d => if d ≥ 80 then 1 else if d ≥ 60 then 0.7 else if d ≥ 40 then 0.4 else 0.1

/-- `CodeQualityValidation.calculate_quality_score`
(`quality_models.py` lines 215-259): five addends divided by `max_score = 5`. -/
def CodeQualityValidation.calculate_quality_score (v : CodeQualityValidation) : ℚ :=
  ((if v.static_analysis_passed then 1 else 0) +
   (if v.type_checking_passed then 1 else 0) +
   (if v.linting_passed then 1 else 0) +
   complexityAddend v.complexity_score +
   documentationAddend v.documentation_coverage_percentage) / 5

/-- `CodeQualityValidation.meets_quality_standards`
(`quality_models.py` lines 261-268). -/
def CodeQualityValidation.meets_quality_standards (v : CodeQualityValidation) : Bool :=
  v.static_analysis_passed &&
  v.type_checking_passed &&
  v.linting_passed &&
  v.code_style_violations == 0

/-- The fields of `QualityResult` used by aggregation
(`quality_models.py` lines 271-294). -/
structure QualityResult where
  task_id : String
  overall_status : QualityGateStatus
  tdd_validation : TDDValidation
  security_validation : SecurityValidation
  performance_validation : PerformanceValidation
  code_quality_validation : CodeQualityValidation
deriving DecidableEq, Repr

/-- TDD component score of `calculate_overall_quality_score`
(`quality_models.py` lines 305-315). -/
def QualityResult.tddComponentScore (q : QualityResult) : ℚ :=
  if q.tdd_validation.meets_requirements then 1
  else if q.tdd_validation.test_coverage_percentage ≥ 80 then 0.8
  else if q.tdd_validation.test_coverage_percentage ≥ 60 then 0.6
  else 0.3

/-- Security component score of `calculate_overall_quality_score`
(`quality_models.py` lines 317-325). -/
def QualityResult.securityComponentScore (q : QualityResult) : ℚ :=
  if q.security_validation.meets_security_requirements then 1
  else if q.security_validation.high_severity_vulnerabilities = 0 then 0.7
  else 0.3

/-- `QualityResult.calculate_overall_quality_score`
(`quality_models.py` lines 296-337): equally weighted average of the four
component scores (`sum(scores) / len(scores)` with four scores appended). -/
def QualityResult.calculate_overall_quality_score (q : QualityResult) : ℚ :=
  let scores : List ℚ :=
    [q.tddComponentScore, q.securityComponentScore,
     q.performance_validation.calculate_performance_score,
     q.code_quality_validation.calculate_quality_score]
  scores.sum / (scores.length : ℚ)

/-- `QualityResult.all_quality_gates_passed` (`quality_models.py` lines 339-351). -/
def QualityResult.all_quality_gates_passed (q : QualityResult) : Bool :=
  q.tdd_validation.meets_requirements &&
  q.security_validation.meets_security_requirements &&
  q.performance_validation.performance_requirements_met &&
  q.code_quality_validation.meets_quality_standards

/-- The `overall_status` computation of
`QualityGateEngine.validate_task_quality` (`quality_gate_engine.py`
lines 81-109): start from `PASSED`, downgrade to `FAILED` when any of the
four sub-validation statuses is `FAILED`. -/
def compute_overall_status (t s p c : QualityGateStatus) : QualityGateStatus :=
  let o := QualityGateStatus.passed
  let o := if t = QualityGateStatus.failed then QualityGateStatus.failed else o
  let o := if s = QualityGateStatus.failed then QualityGateStatus.failed else o
  let o := if p = QualityGateStatus.failed then QualityGateStatus.failed else o
  let o := if c = QualityGateStatus.failed then QualityGateStatus.failed else o
  o

/-! ## Per-task execution (`parallel_orchestrator.py`, `result_models.py`) -/

/-- `TaskExecutionStatus` enum (`result_models.py` lines 15-22). -/
inductive TaskExecutionStatus where
  | pending
  | in_progress
  | completed
  | failed
  | cancelled
  | retrying
deriving DecidableEq, Repr

/-- The `error_details` dict attached to a failed `TaskResult`: either
`\x7b"type": "quality_gate_failure", "failed_gates": [...]\x7d`
(`parallel_orchestrator.py` lines 461-471) or `\x7b"error": str(e)\x7d`
(line 515). -/
inductive ErrorDetails where
  | quality_gate_failure (failed_gates : List String)
  | plain (message : String)
deriving DecidableEq, Repr

/-- The fields of `TaskResult` (`result_models.py` lines 34-77) that the
orchestrator's control flow reads or writes. -/
structure TaskResultM where
  task_id : String
  status : TaskExecutionStatus
  agent_id : String
  quality_validation : Option QualityResult
  error_details : Option ErrorDetails
deriving DecidableEq, Repr

/-- The `failed_gates` list built in `_execute_single_task`
(`parallel_orchestrator.py` lines 463-470): the keys of the four-entry
dict whose associated gate predicate is false, in dict insertion order. -/
def failed_gates_list (q : QualityResult) : List String :=
  ([("tdd", q.tdd_validation.meets_requirements),
    ("security", q.security_validation.meets_security_requirements),
    ("performance", q.performance_validation.performance_requirements_met),
    ("code_quality", q.code_quality_validation.meets_quality_standards)].filter
      (fun gp => !gp.2)).map (fun gp => gp.1)

/-- Quality-gate enforcement on a completed task result
(`parallel_orchestrator.py` lines 452-471): attach the quality validation;
when not all gates passed, downgrade the status to `FAILED` with a
`quality_gate_failure` error detail. -/
def apply_quality_gates (q : QualityResult) (tr : TaskResultM) : TaskResultM :=
  let tr := { tr with quality_validation := some q }
  if !q.all_quality_gates_passed then
    { tr with status := TaskExecutionStatus.failed,
              error_details := some (ErrorDetails.quality_gate_failure (failed_gates_list q)) }
  else tr

/-- Outcome of `agent.execute_task` as read by the orchestrator
(`parallel_orchestrator.py` lines 432-436): the `success` flag and the
`error` entry used in the failure message. -/
structure AgentExecOutcome where
  success : Bool
  errorMessage : String
deriving DecidableEq, Repr

/-- One task's external environment inside a layer fan-out: the outcome of
each potentially raising step of `_execute_single_task` —
`acquire_agent` (may raise `AgentCoordinationError`), `agent.execute_task`
(may raise), and `quality_gate_engine.validate_task_quality`
(may raise `QualityGateError`).  `Except.error` models a raised exception. -/
structure TaskEnv where
  acquire : Except String String
  agent_exec : Except String AgentExecOutcome
  quality : Except String QualityResult
deriving Repr

/-- A task as seen by the session loop: its id and declared `depends_on`
list (`_verify_layer_dependencies` reads exactly these,
`parallel_orchestrator.py` lines 523-535). -/
structure SessionTask where
  task_id : String
  depends_on : List String
deriving DecidableEq, Repr

/-- The body of `_execute_single_task` inside its outer `try`
(`parallel_orchestrator.py` lines 408-500), with Archon status
notifications (whose exceptions are caught and logged in place) and
timestamps omitted: acquire a worker, run it, reject a reported failure,
then apply quality gates when enforcement is on. -/
def execute_single_task_body (quality_enforcement : Bool) (t : SessionTask)
    (env : TaskEnv) : Except String TaskResultM := do
  let aid ← env.acquire
  let outcome ← env.agent_exec
  if !outcome.success then
    throw ("Task execution failed: " ++ outcome.errorMessage)
  let tr : TaskResultM :=
    { task_id := t.task_id, status := TaskExecutionStatus.completed,
      agent_id := aid, quality_validation := none, error_details := none }
  if quality_enforcement then
    let q ← env.quality
    return apply_quality_gates q tr
  else
    return tr

/-- `_execute_single_task` (`parallel_orchestrator.py` lines 402-521): the
outer `except` converts any exception raised along the execution path into
a failed `TaskResult` carrying the stringified error, so the function is
total. -/
def execute_single_task (quality_enforcement : Bool) (t : SessionTask)
    (env : TaskEnv) : TaskResultM :=
  match execute_single_task_body quality_enforcement t env with
  | Except.ok tr => tr
  | Except.error e =>
      { task_id := t.task_id, status := TaskExecutionStatus.failed,
        agent_id := "unknown", quality_validation := none,
        error_details := some (ErrorDetails.plain e) }

/-- The fan-out/fan-in of `_execute_layer`
(`parallel_orchestrator.py` lines 368-400) for a layer in which no task is
already completed: `asyncio.gather` awaits every launched coroutine and
yields one recorded result per task.  Each task's result depends only on
its own environment. -/
def execute_layer_results (quality_enforcement : Bool) (tasks : List SessionTask)
    (env : String → TaskEnv) : List TaskResultM :=
  tasks.map (fun t => execute_single_task quality_enforcement t (env t.task_id))

/-! ## Session layer loop (`parallel_orchestrator.py`, `result_models.py`) -/

/-- A layer as consumed by the session loop. -/
structure SessionLayer where
  tasks : List SessionTask
deriving DecidableEq, Repr

/-- The slice of `ExecutionGraph` the session loop reads: the ordered
layers and the `total_tasks` count. -/
structure SessionGraph where
  execution_layers : List SessionLayer
  total_tasks : Nat
deriving DecidableEq, Repr

/-- `OrchestrationState` enum (`parallel_orchestrator.py` lines 25-33). -/
inductive OrchestrationState where
  | initializing
  | ready
  | executing
  | paused
  | completed
  | failed
  | cancelled
deriving DecidableEq, Repr

/-- The mutable session bookkeeping the layer loop maintains
(`ExecutionSession.completed_tasks` / `failed_tasks` and the local
`execution_errors` list of `_execute_session`).  The id sets are lists
without duplicates. -/
structure SessionSt where
  completed_tasks : List String
  failed_tasks : List String
  execution_errors : List String
deriving DecidableEq, Repr

/-- The initial session bookkeeping. -/
def SessionSt.init : SessionSt := ⟨[], [], []⟩

/-- `_verify_layer_dependencies` (`parallel_orchestrator.py` lines 523-535):
the first `(task, dependency)` pair whose dependency is not in the
completed set, scanning tasks and their `depends_on` lists in order;
`none` when the layer's dependencies are all satisfied. -/
def find_unsatisfied (completed : List String) :
    List SessionTask → Option (String × String)
  | [] => none
  | t :: ts =>
      match t.depends_on.find? (fun d => !(completed.contains d)) with
      | some d => some (t.task_id, d)
      | none => find_unsatisfied completed ts

/-- The session-set update for one launched task
(`parallel_orchestrator.py` lines 474-494): its id joins
`completed_tasks` when the final task result is successful, else
`failed_tasks`. -/
def launch_task (oracle : String → Bool) (s : SessionSt) (t : SessionTask) :
    SessionSt :=
  if oracle t.task_id then
    { s with completed_tasks := s.completed_tasks ++ [t.task_id] }
  else
    { s with failed_tasks := s.failed_tasks ++ [t.task_id] }

/-- The per-layer fan-out as the session loop sees it: launch every task of
the layer not already in `completed_tasks`; the task's final result is
successful or failed according to `oracle` (which abstracts
`execute_single_task` followed by `TaskResult.is_successful`); update the
completed/failed sets (`parallel_orchestrator.py` lines 368-378, 474-494).
Returns the new state, the number of successful results, and the number of
launched tasks. -/
def execute_layer (oracle : String → Bool) (st : SessionSt) (layer : SessionLayer) :
    SessionSt × Nat × Nat :=
  let launched := layer.tasks.filter (fun t => !(st.completed_tasks.contains t.task_id))
  let st' := launched.foldl (launch_task oracle) st
  (st', (launched.filter (fun t => oracle t.task_id)).length, launched.length)

/-- `_process_layer_results` (`parallel_orchestrator.py` lines 537-556):
`success_rate = successful / total if total > 0 else 0`; the layer is
successful enough to continue when the rate is at least 0.8. -/
def process_layer_results (successful total : Nat) : Bool :=
  let success_rate : ℚ := if total > 0 then (successful : ℚ) / (total : ℚ) else 0
  decide (success_rate ≥ 0.8)

/-- The `ParallelExecutionError` message of `_verify_layer_dependencies`
(`parallel_orchestrator.py` lines 532-535). -/
def unsatisfiedMessage (tid dep : String) : String :=
  s!"Dependency not satisfied: task {tid} depends on {dep} which has not completed successfully"

/-- The layer loop of `_execute_session`
(`parallel_orchestrator.py` lines 313-341).  Per layer: verify blocking
dependencies (a violation raises `ParallelExecutionError`, caught by the
surrounding `except`, which records the message and stops the loop);
otherwise fan the layer out and evaluate
`if not layer_success and not execution_layers[layer_index:]: break` —
the Python slice from the current index onward is exactly the remaining
list `layer :: rest`. -/
def run_layers (oracle : String → Bool) :
    List SessionLayer → SessionSt → SessionSt
  | [], st => st
  | layer :: rest, st =>
      match find_unsatisfied st.completed_tasks layer.tasks with
      | some td =>
          { st with execution_errors := st.execution_errors ++
              [unsatisfiedMessage td.1 td.2] }
      | none =>
          let p := execute_layer oracle st layer
          let layer_success := process_layer_results p.2.1 p.2.2
          if !layer_success && (layer :: rest).isEmpty then p.1
          else run_layers oracle rest p.1

/-- Exceptions surfacing from result construction and the public entry
point: Python's `ZeroDivisionError` (whose `str` is "division by zero"),
pydantic validation errors, and `ParallelExecutionError`. -/
inductive PyExn where
  | zeroDivisionError
  | validationError (message : String)
  | parallelExecutionError (message : String)
deriving DecidableEq, Repr

/-- `str(e)` for the exceptions above. -/
def PyExn.text : PyExn → String
  | PyExn.zeroDivisionError => "division by zero"
  | PyExn.validationError m => m
  | PyExn.parallelExecutionError m => m

/-- The `ExecutionResult` fields involved in `is_successful`
(`result_models.py` lines 154-187, 303-309). -/
structure ExecutionResultM where
  total_tasks : Nat
  successful_tasks : Nat
  failed_tasks : Nat
  cancelled_tasks : Nat
  error_summary : List String
deriving DecidableEq, Repr

/-- `ExecutionResult.is_successful` (`result_models.py` lines 303-309). -/
def ExecutionResultM.is_successful (r : ExecutionResultM) : Bool :=
  r.failed_tasks == 0 &&
  r.successful_tasks == r.total_tasks &&
  r.error_summary.length == 0

/-- `_create_execution_result` (`parallel_orchestrator.py` lines 558-598):
`parallel_execution_stats` divides `total_tasks` by the number of layers —
a `ZeroDivisionError` when there are no layers; the constructed
`ExecutionResult` is validated by pydantic (`total_tasks` strictly
positive, `result_models.py` line 161; counts at most `total_tasks` and
`cancelled_tasks` nonnegative, lines 162-187).  `update_task_counts`
recomputes the counts from the recorded task results, which equal the
sizes of the completed/failed sets because each launched task records
exactly one result. -/
def create_execution_result (g : SessionGraph) (st : SessionSt) :
    Except PyExn ExecutionResultM :=
  if g.execution_layers.length = 0 then
    Except.error PyExn.zeroDivisionError
  else if g.total_tasks = 0 then
    Except.error (PyExn.validationError "total_tasks must be greater than 0")
  else if g.total_tasks < st.completed_tasks.length + st.failed_tasks.length then
    Except.error (PyExn.validationError "Task count cannot exceed total tasks")
  else
    Except.ok
      { total_tasks := g.total_tasks,
        successful_tasks := st.completed_tasks.length,
        failed_tasks := st.failed_tasks.length,
        cancelled_tasks :=
          g.total_tasks - st.completed_tasks.length - st.failed_tasks.length,
        error_summary := st.execution_errors }

/-- `_execute_session` (`parallel_orchestrator.py` lines 307-357): run the
layer loop, build the final execution result (an exception here
propagates), then set the terminal session state — `COMPLETED` when
`execution_result.is_successful()`, else `FAILED`. -/
def execute_session (g : SessionGraph) (oracle : String → Bool) :
    Except PyExn (OrchestrationState × ExecutionResultM) :=
  match create_execution_result g
      (run_layers oracle g.execution_layers SessionSt.init) with
  | Except.error e => Except.error e
  | Except.ok r =>
      if r.is_successful then Except.ok (OrchestrationState.completed, r)
      else Except.ok (OrchestrationState.failed, r)

/-- `execute_implementation_plan` (`parallel_orchestrator.py`
lines 114-157): any exception escaping the session is re-raised as
`ParallelExecutionError` wrapping the stringified cause. -/
def execute_implementation_plan (g : SessionGraph) (oracle : String → Bool) :
    Except PyExn ExecutionResultM :=
  match execute_session g oracle with
  | Except.error e =>
      Except.error (PyExn.parallelExecutionError
        ("Failed to execute implementation plan: " ++ e.text))
  | Except.ok (_, r) => Except.ok r

/-- Total number of task slots across a list of layers. -/
def layersTaskCount (ls : List SessionLayer) : Nat :=
  (ls.map (fun l => l.tasks.length)).sum

/-- All task ids of a list of layers, in order. -/
def layersTaskIds (ls : List SessionLayer) : List String :=
  ls.flatMap (fun l => l.tasks.map (fun t => t.task_id))

/-! ## Dependency analysis (`dependency_analyzer.py`, `execution_graph.py`) -/

/-- Boolean prefix test on character lists. -/
def prefixB : List Char → List Char → Bool
  | [], _ => true
  | _ :: _, [] => false
  | a :: as, b :: bs => a == b && prefixB as bs

/-- Boolean contiguous-substring test on character lists, modelling
Python's `needle in haystack` for strings. -/
def infixB (needle : List Char) : List Char → Bool
  | [] => needle.isEmpty
  | b :: bs => prefixB needle (b :: bs) || infixB needle bs

/-- `keyword in s.lower()` for a lowercase keyword literal. -/
def containsKw (s : String) (kw : String) : Bool :=
  infixB kw.data (s.data.map Char.toLower)

/-- The slice of `TaskContext` (`complete_task.py` lines 14-57) the
dependency heuristics read; `file_locations` is an insertion-ordered dict
from path to free-text description. -/
structure TaskContext where
  project_background : String
  file_locations : List (String × String)
deriving DecidableEq, Repr

/-- The slice of `CompleteTask` (`complete_task.py` lines 131-180) the
analyzer reads.  `depends_on` is the declared-dependency list the task
generator passes (`task_context_generator.py` line 226) and
`dependency_analyzer.py` / `_verify_layer_dependencies` read. -/
structure CompleteTask where
  task_id : String
  title : String
  complete_context : TaskContext
  depends_on : List String
deriving DecidableEq, Repr

/-- A task-to-task dependency edge (`execution_graph.py` lines 22-39).
`dependency_type` is provenance metadata never read by validation or
layering and is replaced here by the *name* of the `DependencyType` member
the analyzer requests when building the edge (see `mkDependency`);
the free-text `description` is likewise omitted. -/
structure TaskDependency where
  from_task_id : String
  to_task_id : String
  is_blocking : Bool
deriving DecidableEq, Repr

/-- `DependencyAnalysisError` and its subclass `CircularDependencyError`
(`dependency_analyzer.py` lines 21-28), carrying their message
(Python's `str(e)`). -/
inductive AnalysisExn where
  | dependencyAnalysisError (message : String)
  | circularDependencyError (message : String)
deriving DecidableEq, Repr

/-- `str(e)` for the analyzer exceptions. -/
def AnalysisExn.text : AnalysisExn → String
  | AnalysisExn.dependencyAnalysisError m => m
  | AnalysisExn.circularDependencyError m => m

/-- Exceptions raised inside `analyze_task_dependencies` before the
blanket `except`: an `AttributeError` (see `mkDependency`) or one of the
analyzer exceptions raised by validation. -/
inductive PyError where
  | attributeError (message : String)
  | analysisError (e : AnalysisExn)
deriving DecidableEq, Repr

/-- `str(e)` for the inner exceptions. -/
def PyError.text : PyError → String
  | PyError.attributeError m => m
  | PyError.analysisError e => e.text

/-- The members the `DependencyType` enum actually declares
(`execution_graph.py` lines 14-19): CODE, FILE, ENVIRONMENT, DATA. -/
def dependencyTypeMembers : List String :=
  ["CODE", "FILE", "ENVIRONMENT", "DATA"]

/-- Construction of a `TaskDependency` by the analyzer.  The analyzer
requests `DependencyType.EXPLICIT` / `.FILE` / `.LOGICAL` /
`.ARCHITECTURAL` (`dependency_analyzer.py` lines 230, 283, 330, 366, 378),
but the enum only declares CODE/FILE/ENVIRONMENT/DATA, so every request
other than FILE raises `AttributeError` at run time (Python's message,
which quotes the class and member names, is abbreviated here; no claim
evaluates this branch). -/
def mkDependency (typeName fid tid : String) (blocking : Bool) :
    Except PyError TaskDependency :=
  if dependencyTypeMembers.contains typeName then
    Except.ok { from_task_id := fid, to_task_id := tid, is_blocking := blocking }
  else
    Except.error (PyError.attributeError
      ("type object DependencyType has no attribute " ++ typeName))

/-- `_extract_explicit_dependencies` (`dependency_analyzer.py`
lines 213-236): one blocking EXPLICIT edge per declared dependency that
resolves to a task in the set; unresolved ids are logged and skipped. -/
def extract_explicit_dependencies (tasks : List CompleteTask) :
    Except PyError (List TaskDependency) :=
  tasks.foldlM (fun acc task =>
    task.depends_on.foldlM (fun acc2 dep_id =>
      if !(tasks.any (fun t => t.task_id == dep_id)) then pure acc2
      else do
        let d ← mkDependency "EXPLICIT" task.task_id dep_id true
        pure (acc2 ++ [d])) acc) []

/-- Python-dict assignment `d[k] = v` on an insertion-ordered
association list. -/
def dictSetStr (d : List (String × String)) (k v : String) :
    List (String × String) :=
  if d.any (fun p => p.1 == k) then
    d.map (fun p => if p.1 == k then (p.1, v) else p)
  else d ++ [(k, v)]

/-- `defaultdict(list)` append `d[k].append(v)`. -/
def dictAppend (d : List (String × List String)) (k v : String) :
    List (String × List String) :=
  if d.any (fun p => p.1 == k) then
    d.map (fun p => if p.1 == k then (p.1, p.2 ++ [v]) else p)
  else d ++ [(k, [v])]

/-- `d.get(k, [])`. -/
def dictGetList (d : List (String × List String)) (k : String) : List String :=
  match d.find? (fun p => p.1 == k) with
  | some p => p.2
  | none => []

/-- `_analyze_file_dependencies` (`dependency_analyzer.py` lines 259-289):
build the creator and consumer maps from each task's `file_locations`
("creat"/"implement" in the lowered description marks a creator), then one
blocking FILE edge from each consumer to the creator of the same path. -/
def analyze_file_dependencies (tasks : List CompleteTask) :
    Except PyError (List TaskDependency) :=
  let maps := tasks.foldl
    (fun (m : List (String × String) × List (String × List String)) task =>
      task.complete_context.file_locations.foldl (fun m2 fd =>
        if containsKw fd.2 "creat" || containsKw fd.2 "implement" then
          (dictSetStr m2.1 fd.1 task.task_id, m2.2)
        else
          (m2.1, dictAppend m2.2 fd.1 task.task_id)) m)
    ([], [])
  maps.1.foldlM (fun acc fc =>
    (dictGetList maps.2 fc.1).foldlM (fun acc2 consumer_id =>
      if fc.2 == consumer_id then pure acc2
      else do
        let d ← mkDependency "FILE" consumer_id fc.2 true
        pure (acc2 ++ [d])) acc) []

/-- The fixed keyword precedence table of `_analyze_context_dependencies`
(`dependency_analyzer.py` lines 299-304), in dict insertion order. -/
def dependency_keywords : List (String × List String) :=
  [("model", ["api", "service", "test"]),
   ("database", ["model", "api"]),
   ("test", []),
   ("config", ["model", "api", "service"])]

/-- `_analyze_context_dependencies` (`dependency_analyzer.py`
lines 291-336): categorise tasks by keyword occurrence in the lowered
title or project background, then one non-blocking LOGICAL edge from each
dependent-category task to each prerequisite-category task. -/
def analyze_context_dependencies (tasks : List CompleteTask) :
    Except PyError (List TaskDependency) :=
  let tasks_by_type := tasks.foldl (fun acc task =>
    dependency_keywords.foldl (fun acc2 kw =>
      if containsKw task.title kw.1 ||
         containsKw task.complete_context.project_background kw.1 then
        dictAppend acc2 kw.1 task.task_id
      else acc2) acc) []
  dependency_keywords.foldlM (fun acc entry =>
    entry.2.foldlM (fun acc2 prereq_type =>
      (dictGetList tasks_by_type entry.1).foldlM (fun acc3 dependent_id =>
        (dictGetList tasks_by_type prereq_type).foldlM (fun acc4 prereq_id =>
          if dependent_id == prereq_id then pure acc4
          else do
            let d ← mkDependency "LOGICAL" dependent_id prereq_id false
            pure (acc4 ++ [d])) acc3) acc2) acc) []

/-- The foundation/implementation/integration classification of
`_analyze_architectural_dependencies` (`dependency_analyzer.py`
lines 350-358): an if/elif chain over title keywords. -/
def arch_lists (tasks : List CompleteTask) :
    List String × List String × List String :=
  tasks.foldl (fun (l : List String × List String × List String) task =>
    if ["setup", "config", "foundation", "basic"].any
        (fun kw => containsKw task.title kw) then
      (l.1 ++ [task.task_id], l.2.1, l.2.2)
    else if ["implement", "create", "build"].any
        (fun kw => containsKw task.title kw) then
      (l.1, l.2.1 ++ [task.task_id], l.2.2)
    else if ["integrat", "connect", "coordin"].any
        (fun kw => containsKw task.title kw) then
      (l.1, l.2.1, l.2.2 ++ [task.task_id])
    else l) ([], [], [])

/-- `_analyze_architectural_dependencies` (`dependency_analyzer.py`
lines 338-384): blocking ARCHITECTURAL edges, implementation on
foundation then integration on implementation. -/
def analyze_architectural_dependencies (tasks : List CompleteTask) :
    Except PyError (List TaskDependency) := do
  let lists := arch_lists tasks
  let part1 ← lists.2.1.foldlM (fun acc impl_id =>
    lists.1.foldlM (fun acc2 found_id => do
      let d ← mkDependency "ARCHITECTURAL" impl_id found_id true
      pure (acc2 ++ [d])) acc) []
  lists.2.2.foldlM (fun acc integ_id =>
    lists.2.1.foldlM (fun acc2 impl_id => do
      let d ← mkDependency "ARCHITECTURAL" integ_id impl_id true
      pure (acc2 ++ [d])) acc) part1

/-- `_analyze_implicit_dependencies` (`dependency_analyzer.py`
lines 238-257): union of the file, context and architectural edges. -/
def analyze_implicit_dependencies (tasks : List CompleteTask) :
    Except PyError (List TaskDependency) := do
  let fileDeps ← analyze_file_dependencies tasks
  let contextDeps ← analyze_context_dependencies tasks
  let archDeps ← analyze_architectural_dependencies tasks
  pure (fileDeps ++ contextDeps ++ archDeps)

/-- `DependencyGraph` (`execution_graph.py` lines 42-47). -/
structure DependencyGraph where
  tasks : List String
  dependencies : List TaskDependency
deriving DecidableEq, Repr

/-- `in_degree[k]` lookup. -/
def degGet (deg : List (String × Int)) (k : String) : Int :=
  match deg.find? (fun p => p.1 == k) with
  | some p => p.2
  | none => 0

/-- Pointwise update of `in_degree[k]`.  Task ids are assumed distinct,
as the Python dict comprehension keys the map by id. -/
def degUpdate (deg : List (String × Int)) (k : String) (f : Int → Int) :
    List (String × Int) :=
  deg.map (fun p => if p.1 == k then (p.1, f p.2) else p)

/-- The `while queue` loop of `DependencyGraph.validate_acyclic`
(`execution_graph.py` lines 87-94), returning `processed_count`: pop the
queue head, count it, decrement each neighbour's in-degree and enqueue
those reaching zero.  The loop is run on explicit fuel; every queue entry
is either an initial zero-in-degree task or is appended by exactly one
decrement-to-zero event, so total pops are at most
`tasks.length + dependencies.length` and the supplied fuel is never
exhausted. -/
def kahnLoop (graph : List (String × List String)) :
    Nat → List String → List (String × Int) → Nat → Nat
  | 0, _, _, processed => processed
  | _ + 1, [], _, processed => processed
  | fuel + 1, current :: rest, deg, processed =>
      let step := (dictGetList graph current).foldl
        (fun (st : List (String × Int) × List String) n =>
          let d' := degUpdate st.1 n (fun x => x - 1)
          if degGet d' n == 0 then (d', st.2 ++ [n]) else (d', st.2))
        (deg, [])
      kahnLoop graph fuel (rest ++ step.2) step.1 (processed + 1)

/-- `DependencyGraph.validate_acyclic` (`execution_graph.py` lines 67-98):
Kahn's algorithm over the blocking edges; acyclic iff every task gets
processed. -/
def validate_acyclic (g : DependencyGraph) : Bool :=
  let graph := g.dependencies.foldl
    (fun acc d =>
      if d.is_blocking then dictAppend acc d.to_task_id d.from_task_id else acc)
    (g.tasks.map (fun t => (t, ([] : List String))))
  let deg := g.dependencies.foldl
    (fun acc d =>
      if d.is_blocking then degUpdate acc d.from_task_id (fun x => x + 1) else acc)
    (g.tasks.map (fun t => (t, (0 : Int))))
  let queue := g.tasks.filter (fun t => degGet deg t == 0)
  let processed :=
    kahnLoop graph (g.tasks.length + g.dependencies.length + 1) queue deg 0
  processed == g.tasks.length

/-- The endpoint check of `_validate_dependency_graph`
(`dependency_analyzer.py` lines 392-401). -/
def check_endpoints (valid : List String) :
    List TaskDependency → Except AnalysisExn Unit
  | [] => Except.ok ()
  | d :: ds =>
      if !(valid.contains d.from_task_id) then
        let fid := d.from_task_id
        Except.error (AnalysisExn.dependencyAnalysisError
          s!"Invalid dependency: {fid} not in task list")
      else if !(valid.contains d.to_task_id) then
        let tid := d.to_task_id
        Except.error (AnalysisExn.dependencyAnalysisError
          s!"Invalid dependency: {tid} not in task list")
      else check_endpoints valid ds

/-- `_validate_dependency_graph` (`dependency_analyzer.py` lines 386-405):
endpoint validation, then `CircularDependencyError` when
`validate_acyclic` reports a cycle. -/
def validate_dependency_graph (g : DependencyGraph) (valid_task_ids : List String) :
    Except AnalysisExn Unit := do
  check_endpoints valid_task_ids g.dependencies
  if validate_acyclic g then Except.ok ()
  else Except.error (AnalysisExn.circularDependencyError
    "Circular dependencies detected in task graph")

/-- The body of `analyze_task_dependencies` inside its `try`
(`dependency_analyzer.py` lines 60-84). -/
def analyze_body (tasks : List CompleteTask) : Except PyError DependencyGraph := do
  let task_ids := tasks.map (fun t => t.task_id)
  let explicitDeps ← extract_explicit_dependencies tasks
  let implicitDeps ← analyze_implicit_dependencies tasks
  let g : DependencyGraph := ⟨task_ids, explicitDeps ++ implicitDeps⟩
  match validate_dependency_graph g task_ids with
  | Except.ok _ => pure g
  | Except.error e => Except.error (PyError.analysisError e)

/-- `analyze_task_dependencies` (`dependency_analyzer.py` lines 43-88):
the blanket `except Exception as e` catches every inner exception —
`CircularDependencyError` included, since it subclasses
`DependencyAnalysisError` ⊂ `Exception` — and raises a *new*
`DependencyAnalysisError` wrapping `str(e)`. -/
def analyze_task_dependencies (tasks : List CompleteTask) :
    Except AnalysisExn DependencyGraph :=
  match analyze_body tasks with
  | Except.ok g => Except.ok g
  | Except.error e =>
      Except.error (AnalysisExn.dependencyAnalysisError
        ("Failed to analyze dependencies: " ++ e.text))

/-- The in-degree of `t` restricted to blocking edges whose prerequisite
(`to_task_id`) is still unplaced.  `_generate_execution_layers`
(`dependency_analyzer.py` lines 413-425, 461-466) maintains this quantity
imperatively: `in_degree[from]` starts at the number of blocking edges out
of `from` and is decremented exactly when the edge's `to` task leaves
`remaining_tasks`; when every edge endpoint lies in the task list
(guaranteed by `_validate_dependency_graph`), the running value equals
this count. -/
def blockingInDegree (deps : List TaskDependency) (remaining : List String)
    (t : String) : Nat :=
  (deps.filter (fun d =>
    d.is_blocking && d.from_task_id == t && remaining.contains d.to_task_id)).length

/-- `_generate_execution_layers` (`dependency_analyzer.py` lines 407-469):
Kahn's algorithm extracting the whole zero-in-degree frontier as one layer
per iteration; an empty frontier with tasks remaining raises
`DependencyAnalysisError`.  Layers are modelled by their task-id lists;
the construction of `ExecutionLayer` objects (task lookup, maximal
duration) does not affect placement or order.  The `while remaining_tasks`
loop runs on an explicit bound: every iteration either raises or removes
at least one task, so `remaining.length` bounds the iteration count and
the exhausted-bound branch (kept identical to the empty-frontier raise)
is never reached from `generate_execution_layers`. -/
def generate_execution_layers_aux (deps : List TaskDependency) :
    Nat → List String → Except String (List (List String))
  | fuel, remaining =>
    if remaining.isEmpty then Except.ok []
    else
      let current_layer_tasks :=
        remaining.filter (fun t => blockingInDegree deps remaining t == 0)
      if current_layer_tasks.isEmpty then
        Except.error "Cannot create execution layers - possible circular dependency"
      else
        match fuel with
        | 0 =>
            Except.error "Cannot create execution layers - possible circular dependency"
        | fuel' + 1 =>
            match generate_execution_layers_aux deps fuel'
                (remaining.filter (fun t => !(current_layer_tasks.contains t))) with
            | Except.ok layers => Except.ok (current_layer_tasks :: layers)
            | Except.error e => Except.error e

/-- `_generate_execution_layers` proper; see
`generate_execution_layers_aux`. -/
def generate_execution_layers (deps : List TaskDependency)
    (remaining : List String) : Except String (List (List String)) :=
  generate_execution_layers_aux deps remaining.length remaining

/-- The layer index of a task: the index of the first layer containing it. -/
def layerIndexOf : List (List String) → String → Option Nat
  | [], _ => none
  | l :: ls, t =>
      if l.contains t then some 0 else (layerIndexOf ls t).map (fun i => i + 1)

/-! ## Concrete inputs used by witnesses and counterexamples -/

/-- First task of a two-task file-dependency cycle: creates `f1.py`,
reads `f2.py`.  Title and background avoid every keyword of the context
and architectural heuristics. -/
def fileCycleTaskA : CompleteTask :=
  { task_id := "t1", title := "alpha work item one",
    complete_context :=
      { project_background := "alpha",
        file_locations := [("f1.py", "Creates f1"), ("f2.py", "Reads f2")] },
    depends_on := [] }

/-- Second task of the cycle: creates `f2.py`, reads `f1.py`. -/
def fileCycleTaskB : CompleteTask :=
  { task_id := "t2", title := "alpha work item two",
    complete_context :=
      { project_background := "alpha",
        file_locations := [("f2.py", "Creates f2"), ("f1.py", "Reads f1")] },
    depends_on := [] }

/-- Two singleton layers with no declared dependencies. -/
def haltGraph : SessionGraph :=
  { execution_layers := [⟨[⟨"a", []⟩]⟩, ⟨[⟨"b", []⟩]⟩], total_tasks := 2 }

/-- Task `a` fails, task `b` succeeds. -/
def haltOracle : String → Bool := fun tid => tid == "b"

/-- One layer of two independent tasks. -/
def okGraph : SessionGraph :=
  { execution_layers := [⟨[⟨"a", []⟩, ⟨"b", []⟩]⟩], total_tasks := 2 }

/-- Every task succeeds. -/
def allSucceed : String → Bool := fun _ => true

/-- A TDD validation with 80% coverage against a 95% requirement
(all other TDD requirements satisfied). -/
def coverageShortTDD : TDDValidation :=
  { status := QualityGateStatus.failed, test_coverage_percentage := 80,
    minimum_coverage_required := 95, test_count := 5, passing_tests := 5,
    failing_tests := 0, red_green_refactor_cycle_followed := true }

/-- A security validation meeting every requirement. -/
def passingSecurity : SecurityValidation :=
  { status := QualityGateStatus.passed, vulnerability_scan_passed := true,
    input_validation_implemented := true,
    secure_coding_practices_followed := true,
    high_severity_vulnerabilities := 0, medium_severity_vulnerabilities := 0,
    low_severity_vulnerabilities := 0 }

/-- A performance validation meeting its requirements. -/
def passingPerformance : PerformanceValidation :=
  { status := QualityGateStatus.passed, benchmark_executed := true,
    execution_time_seconds := some 2, memory_usage_mb := some 50,
    performance_requirements_met := true }

/-- A code-quality validation meeting every standard. -/
def passingCodeQuality : CodeQualityValidation :=
  { status := QualityGateStatus.passed, static_analysis_passed := true,
    type_checking_passed := true, linting_passed := true,
    complexity_score := some 3, documentation_coverage_percentage := some 90,
    code_style_violations := 0 }

/-- Quality result for a task whose only shortfall is test coverage
(80% against 95%): the TDD gate fails, the other three pass. -/
def coverageShortQuality : QualityResult :=
  { task_id := "task-1", overall_status := QualityGateStatus.failed,
    tdd_validation := coverageShortTDD, security_validation := passingSecurity,
    performance_validation := passingPerformance,
    code_quality_validation := passingCodeQuality }

/-- Quality result with all four gates passing. -/
def passingQuality : QualityResult :=
  { task_id := "task-2", overall_status := QualityGateStatus.passed,
    tdd_validation :=
      { status := QualityGateStatus.passed, test_coverage_percentage := 96,
        minimum_coverage_required := 95, test_count := 5, passing_tests := 5,
        failing_tests := 0, red_green_refactor_cycle_followed := true },
    security_validation := passingSecurity,
    performance_validation := passingPerformance,
    code_quality_validation := passingCodeQuality }

/-- Environment of a worker-success / quality-shortfall task. -/
def downgradeEnv : TaskEnv :=
  { acquire := Except.ok "dev_agent_0",
    agent_exec := Except.ok ⟨true, ""⟩,
    quality := Except.ok coverageShortQuality }

/-- A two-task layer environment: the worker for `t1` raises, `t2` runs
cleanly. -/
def boomEnv : String → TaskEnv := fun tid =>
  if tid == "t1" then
    { acquire := Except.ok "dev_agent_0",
      agent_exec := Except.error "boom",
      quality := Except.ok passingQuality }
  else
    { acquire := Except.ok "dev_agent_1",
      agent_exec := Except.ok ⟨true, ""⟩,
      quality := Except.ok passingQuality }

/-- A sibling variant of `boomEnv` that agrees on `t1` but fails every
step for every other task. -/
def boomEnvVariant : String → TaskEnv := fun tid =>
  if tid == "t1" then boomEnv "t1"
  else
    { acquire := Except.error "No agents available for task execution",
      agent_exec := Except.error "unrelated crash",
      quality := Except.error "quality engine down" }

/-- A two-task layer. -/
def twoTasks : List SessionTask := [⟨"t1", []⟩, ⟨"t2", []⟩]

/-- The spec's layering example: `b` depends on `a`; `d` depends on `b`
and `c`; `c` independent.  All edges blocking. -/
def scheduleDeps : List TaskDependency :=
  [⟨"b", "a", true⟩, ⟨"d", "b", true⟩, ⟨"d", "c", true⟩]

/-- The four tasks of the layering example. -/
def scheduleTasks : List String := ["a", "b", "c", "d"]

/-- A topological rank witnessing acyclicity of `scheduleDeps`. -/
def scheduleRank : String → Nat := fun t =>
  if t == "b" then 1 else if t == "d" then 2 else 0

/-- A pool of two idle agents where the second carries the smaller load. -/
def poolTwo : List ExecutionAgentM :=
  [⟨"dev_agent_0", AgentState.idle, ["t0"], 2⟩,
   ⟨"dev_agent_1", AgentState.idle, [], 2⟩]

/-- A pool whose only agent is busy at capacity. -/
def poolBusy : List ExecutionAgentM :=
  [⟨"dev_agent_0", AgentState.busy, ["t0"], 1⟩]

/-! ## Helper lemmas -/

theorem execTimeFactor_mem_bounds (o : Option ℚ) :
    ∀ x ∈ execTimeFactor o, 0 ≤ x ∧ x ≤ 1 := by
  cases o with
  | none => intro x hx; simp [execTimeFactor] at hx
  | some t =>
      intro x hx
      simp only [execTimeFactor, List.mem_singleton] at hx
      subst hx
      split_ifs <;> norm_num

theorem memoryFactor_mem_bounds (o : Option ℚ) :
    ∀ x ∈ memoryFactor o, 0 ≤ x ∧ x ≤ 1 := by
  cases o with
  | none => intro x hx; simp [memoryFactor] at hx
  | some m =>
      intro x hx
      simp only [memoryFactor, List.mem_singleton] at hx
      subst hx
      split_ifs <;> norm_num

theorem performance_score_bounds (v : PerformanceValidation) :
    0 ≤ v.calculate_performance_score ∧ v.calculate_performance_score ≤ 1 := by
  unfold PerformanceValidation.calculate_performance_score
  set l : List ℚ :=
    execTimeFactor v.execution_time_seconds ++
    memoryFactor v.memory_usage_mb ++
    [if v.performance_requirements_met then 1 else 0.5] with hl
  have hbound : ∀ x ∈ l, 0 ≤ x ∧ x ≤ 1 := by
    intro x hx
    rw [hl] at hx
    rcases List.mem_append.mp hx with hx' | hx'
    · rcases List.mem_append.mp hx' with hx'' | hx''
      · exact execTimeFactor_mem_bounds _ x hx''
      · exact memoryFactor_mem_bounds _ x hx''
    · simp only [List.mem_singleton] at hx'
      subst hx'
      split_ifs <;> norm_num
  have hlen : l.length ≠ 0 := by
    rw [hl]
    simp
  simp only [hlen, if_false]
  constructor
  · apply div_nonneg
    · exact List.sum_nonneg fun x hx => (hbound x hx).1
    · exact_mod_cast Nat.zero_le _
  · rw [div_le_one (by exact_mod_cast Nat.pos_of_ne_zero hlen)]
    have := List.sum_le_card_nsmul l 1 fun x hx => (hbound x hx).2
    simpa using this

theorem complexityAddend_bounds (o : Option ℚ) :
    0 ≤ complexityAddend o ∧ complexityAddend o ≤ 1 := by
  cases o with
  | none => simp [complexityAddend]
  | some c => simp only [complexityAddend]; split_ifs <;> norm_num

theorem documentationAddend_bounds (o : Option ℚ) :
    0 ≤ documentationAddend o ∧ documentationAddend o ≤ 1 := by
  cases o with
  | none => simp [documentationAddend]
  | some d => simp only [documentationAddend]; split_ifs <;> norm_num

theorem code_quality_score_bounds (v : CodeQualityValidation) :
    0 ≤ v.calculate_quality_score ∧ v.calculate_quality_score ≤ 1 := by
  unfold CodeQualityValidation.calculate_quality_score
  obtain ⟨hc0, hc1⟩ := complexityAddend_bounds v.complexity_score
  obtain ⟨hd0, hd1⟩ := documentationAddend_bounds v.documentation_coverage_percentage
  constructor
  · apply div_nonneg _ (by norm_num)
    have h1 : (0:ℚ) ≤ if v.static_analysis_passed then 1 else 0 := by split_ifs <;> norm_num
    have h2 : (0:ℚ) ≤ if v.type_checking_passed then 1 else 0 := by split_ifs <;> norm_num
    have h3 : (0:ℚ) ≤ if v.linting_passed then 1 else 0 := by split_ifs <;> norm_num
    linarith
  · rw [div_le_one (by norm_num)]
    have h1 : (if v.static_analysis_passed then (1:ℚ) else 0) ≤ 1 := by split_ifs <;> norm_num
    have h2 : (if v.type_checking_passed then (1:ℚ) else 0) ≤ 1 := by split_ifs <;> norm_num
    have h3 : (if v.linting_passed then (1:ℚ) else 0) ≤ 1 := by split_ifs <;> norm_num
    linarith

theorem tdd_component_score_bounds (q : QualityResult) :
    0 ≤ q.tddComponentScore ∧ q.tddComponentScore ≤ 1 := by
  unfold QualityResult.tddComponentScore
  split_ifs <;> norm_num

theorem security_component_score_bounds (q : QualityResult) :
    0 ≤ q.securityComponentScore ∧ q.securityComponentScore ≤ 1 := by
  unfold QualityResult.securityComponentScore
  split_ifs <;> norm_num

/-! ## C6 -/

/-- C6: the aggregate overall status computed by `validate_task_quality`
is `failed` iff at least one of the four sub-validation statuses is
`failed`, and `calculate_overall_quality_score` is the arithmetic mean of
the four component scores, each of which lies in `[0, 1]`. -/
theorem quality_aggregation (q : QualityResult) :
    (compute_overall_status q.tdd_validation.status q.security_validation.status
        q.performance_validation.status q.code_quality_validation.status =
        QualityGateStatus.failed ↔
      (q.tdd_validation.status = QualityGateStatus.failed ∨
       q.security_validation.status = QualityGateStatus.failed ∨
       q.performance_validation.status = QualityGateStatus.failed ∨
       q.code_quality_validation.status = QualityGateStatus.failed)) ∧
    q.calculate_overall_quality_score =
      (q.tddComponentScore + q.securityComponentScore +
       q.performance_validation.calculate_performance_score +
       q.code_quality_validation.calculate_quality_score) / 4 ∧
    (0 ≤ q.tddComponentScore ∧ q.tddComponentScore ≤ 1) ∧
    (0 ≤ q.securityComponentScore ∧ q.securityComponentScore ≤ 1) ∧
    (0 ≤ q.performance_validation.calculate_performance_score ∧
      q.performance_validation.calculate_performance_score ≤ 1) ∧
    (0 ≤ q.code_quality_validation.calculate_quality_score ∧
      q.code_quality_validation.calculate_quality_score ≤ 1) := by
  refine ⟨?_, ?_, tdd_component_score_bounds q, security_component_score_bounds q,
    performance_score_bounds q.performance_validation,
    code_quality_score_bounds q.code_quality_validation⟩
  · unfold compute_overall_status
    split_ifs <;> simp_all
  · unfold QualityResult.calculate_overall_quality_score
    simp [List.sum_cons]
    ring

/-! ## C8 -/

theorem pythonMinBy_mem (f : ExecutionAgentM → ℚ) (x : ExecutionAgentM)
    (xs : List ExecutionAgentM) : pythonMinBy f x xs ∈ x :: xs := by
  induction xs generalizing x with
  | nil => simp [pythonMinBy]
  | cons a as ih =>
      have h := ih (if f a < f x then a else x)
      rw [List.mem_cons] at h
      have hgoal : pythonMinBy f x (a :: as) =
          pythonMinBy f (if f a < f x then a else x) as := rfl
      rw [hgoal]
      rcases h with h | h
      · rw [h]
        split_ifs
        · exact List.mem_cons_of_mem _ (List.mem_cons_self _ _)
        · exact List.mem_cons_self _ _
      · exact List.mem_cons_of_mem _ (List.mem_cons_of_mem _ h)

theorem pythonMinBy_le (f : ExecutionAgentM → ℚ) (x : ExecutionAgentM)
    (xs : List ExecutionAgentM) :
    ∀ y ∈ x :: xs, f (pythonMinBy f x xs) ≤ f y := by
  induction xs generalizing x with
  | nil =>
      intro y hy
      simp only [List.mem_singleton] at hy
      subst hy
      simp [pythonMinBy]
  | cons a as ih =>
      intro y hy
      have hgoal : pythonMinBy f x (a :: as) =
          pythonMinBy f (if f a < f x then a else x) as := rfl
      rw [hgoal]
      have hhead : f (pythonMinBy f (if f a < f x then a else x) as) ≤
          f (if f a < f x then a else x) :=
        ih _ _ (List.mem_cons_self _ _)
      have hle_x : f (if f a < f x then a else x) ≤ f x := by
        split_ifs with h
        · exact le_of_lt h
        · exact le_refl _
      have hle_a : f (if f a < f x then a else x) ≤ f a := by
        split_ifs with h
        · exact le_refl _
        · exact not_lt.mp h
      rcases List.mem_cons.mp hy with hy | hy
      · subst hy; exact hhead.trans hle_x
      rcases List.mem_cons.mp hy with hy | hy
      · subst hy; exact hhead.trans hle_a
      · exact ih _ y (List.mem_cons_of_mem _ hy)

/-- C8: `acquire_agent` returns an available agent (idle and below its
declared capacity) of minimal load factor among the available agents of
the pool, and raises `AgentCoordinationError` — rather than blocking —
when no agent is available.  The selection runs entirely under
`_coordination_lock` in the source; the model is the body of that
critical section. -/
theorem acquire_agent_spec (agents : List ExecutionAgentM) :
    (∀ a, acquire_agent agents = Except.ok a →
      a.is_available = true ∧ a ∈ agents ∧
      ∀ b ∈ agents, b.is_available = true →
        a.get_load_factor ≤ b.get_load_factor) ∧
    ((∀ b ∈ agents, b.is_available = false) →
      acquire_agent agents = Except.error "No agents available for task execution") := by
  cases hf : agents.filter ExecutionAgentM.is_available with
  | nil =>
      constructor
      · intro a ha
        unfold acquire_agent find_best_agent at ha
        rw [hf] at ha
        cases ha
      · intro _
        unfold acquire_agent find_best_agent
        rw [hf]
  | cons c rest =>
      have hmem_all : ∀ y ∈ c :: rest, y.is_available = true ∧ y ∈ agents := by
        intro y hy
        have hyf : y ∈ agents.filter ExecutionAgentM.is_available := hf ▸ hy
        have h2 := List.mem_filter.mp hyf
        exact ⟨h2.2, h2.1⟩
      constructor
      · intro a ha
        unfold acquire_agent find_best_agent at ha
        rw [hf] at ha
        simp only [Except.ok.injEq] at ha
        subst ha
        obtain ⟨havail, hmem⟩ :=
          hmem_all _ (pythonMinBy_mem ExecutionAgentM.get_load_factor c rest)
        refine ⟨havail, hmem, ?_⟩
        intro b hb hbav
        have hbf : b ∈ agents.filter ExecutionAgentM.is_available :=
          List.mem_filter.mpr ⟨hb, hbav⟩
        rw [hf] at hbf
        exact pythonMinBy_le ExecutionAgentM.get_load_factor c rest b hbf
      · intro hnone
        exfalso
        obtain ⟨havail, hmem⟩ := hmem_all c (List.mem_cons_self _ _)
        rw [hnone c hmem] at havail
        cases havail

unseal Rat.inv Rat.mul Rat.add Rat.sub Rat.ofScientific in
theorem acquire_agent_spec_witness :
    ((⟨"dev_agent_1", AgentState.idle, [], 2⟩ : ExecutionAgentM).is_available = true ∧
     (⟨"dev_agent_1", AgentState.idle, [], 2⟩ : ExecutionAgentM) ∈ poolTwo ∧
     ∀ b ∈ poolTwo, b.is_available = true →
       (⟨"dev_agent_1", AgentState.idle, [], 2⟩ : ExecutionAgentM).get_load_factor ≤
         b.get_load_factor) ∧
    acquire_agent poolBusy = Except.error "No agents available for task execution" :=
  ⟨(acquire_agent_spec poolTwo).1 _ rfl,
   (acquire_agent_spec poolBusy).2 (by decide)⟩

/-! ## C9 -/

unseal Rat.inv Rat.mul Rat.add Rat.sub Rat.ofScientific in
/-- C9 fails on the code: `acquire_agent` mutates no agent field, so when
two sibling tasks of one layer both run their acquisition (serialized by
`_coordination_lock`) before either reaches `execute_task`, both receive
the same idle agent, and `execute_task` adds each task to
`current_tasks` without any capacity check.  Starting from a fresh
one-agent pool of capacity 1, the interleaving
acquire-acquire-begin-begin leaves the agent holding two concurrent tasks
— above `max_concurrent_tasks` — with load factor 2, outside `[0, 1]`. -/
theorem worker_capacity_exceeded :
    acquire_agent singleAgentPool =
      Except.ok ⟨"dev_agent_0", AgentState.idle, [], 1⟩ ∧
    begin_exec (begin_exec singleAgentPool "dev_agent_0" "t1") "dev_agent_0" "t2" =
      [⟨"dev_agent_0", AgentState.busy, ["t1", "t2"], 1⟩] ∧
    ∀ a ∈ begin_exec (begin_exec singleAgentPool "dev_agent_0" "t1") "dev_agent_0" "t2",
      a.max_concurrent_tasks < a.current_tasks.length ∧
      a.get_load_factor = 2 ∧ ¬(a.get_load_factor ≤ 1) :=
  ⟨rfl, rfl, by decide⟩

/-! ## C10 -/

/-- C10: on a graph with no execution layers, `execute_implementation_plan`
raises `ParallelExecutionError` (the final-result assembly divides the
task count by the number of layers) and never returns an
`ExecutionResult`. -/
theorem empty_layers_raise (g : SessionGraph) (oracle : String → Bool)
    (hempty : g.execution_layers = []) :
    execute_implementation_plan g oracle =
      Except.error (PyExn.parallelExecutionError
        "Failed to execute implementation plan: division by zero") := by
  unfold execute_implementation_plan execute_session
  simp [hempty, run_layers, create_execution_result, PyExn.text]

theorem empty_layers_raise_witness :
    (⟨[], 0⟩ : SessionGraph).execution_layers = [] ∧
    execute_implementation_plan ⟨[], 0⟩ allSucceed =
      Except.error (PyExn.parallelExecutionError
        "Failed to execute implementation plan: division by zero") :=
  ⟨rfl, empty_layers_raise _ _ rfl⟩

/-! ## Session layer-loop lemmas -/

theorem foldl_launch_card (oracle : String → Bool) (ts : List SessionTask) :
    ∀ st : SessionSt,
      (ts.foldl (launch_task oracle) st).completed_tasks.length +
        (ts.foldl (launch_task oracle) st).failed_tasks.length =
        st.completed_tasks.length + st.failed_tasks.length + ts.length := by
  induction ts with
  | nil => intro st; simp
  | cons t ts ih =>
      intro st
      rw [List.foldl_cons, ih]
      unfold launch_task
      split_ifs <;> simp <;> omega

theorem foldl_launch_errors (oracle : String → Bool) (ts : List SessionTask) :
    ∀ st : SessionSt,
      (ts.foldl (launch_task oracle) st).execution_errors = st.execution_errors := by
  induction ts with
  | nil => intro st; rfl
  | cons t ts ih =>
      intro st
      rw [List.foldl_cons, ih]
      unfold launch_task
      split_ifs <;> rfl

theorem foldl_launch_completed_sub (oracle : String → Bool) (ts : List SessionTask) :
    ∀ (st : SessionSt) (x : String),
      x ∈ (ts.foldl (launch_task oracle) st).completed_tasks →
      x ∈ st.completed_tasks ∨ ∃ t ∈ ts, x = t.task_id := by
  induction ts with
  | nil => intro st x hx; exact Or.inl hx
  | cons t ts ih =>
      intro st x hx
      rw [List.foldl_cons] at hx
      rcases ih (launch_task oracle st t) x hx with h | ⟨u, hu, rfl⟩
      · unfold launch_task at h
        split_ifs at h
        · rcases List.mem_append.mp h with h' | h'
          · exact Or.inl h'
          · simp only [List.mem_singleton] at h'
            exact Or.inr ⟨t, List.mem_cons_self _ _, h'⟩
        · exact Or.inl h
      · exact Or.inr ⟨u, List.mem_cons_of_mem _ hu, rfl⟩

theorem execute_layer_errors (oracle : String → Bool) (st : SessionSt)
    (layer : SessionLayer) :
    (execute_layer oracle st layer).1.execution_errors = st.execution_errors :=
  foldl_launch_errors oracle _ st

theorem execute_layer_card_le (oracle : String → Bool) (st : SessionSt)
    (layer : SessionLayer) :
    (execute_layer oracle st layer).1.completed_tasks.length +
      (execute_layer oracle st layer).1.failed_tasks.length ≤
      st.completed_tasks.length + st.failed_tasks.length + layer.tasks.length := by
  unfold execute_layer
  rw [foldl_launch_card]
  have := List.length_filter_le
    (fun t => !(st.completed_tasks.contains t.task_id)) layer.tasks
  omega

theorem execute_layer_card_eq (oracle : String → Bool) (st : SessionSt)
    (layer : SessionLayer)
    (hdisj : ∀ t ∈ layer.tasks, st.completed_tasks.contains t.task_id = false) :
    (execute_layer oracle st layer).1.completed_tasks.length +
      (execute_layer oracle st layer).1.failed_tasks.length =
      st.completed_tasks.length + st.failed_tasks.length + layer.tasks.length := by
  unfold execute_layer
  rw [foldl_launch_card]
  have hfil : layer.tasks.filter
      (fun t => !(st.completed_tasks.contains t.task_id)) = layer.tasks :=
    List.filter_eq_self.mpr (fun t ht => by rw [hdisj t ht]; rfl)
  rw [hfil]

theorem execute_layer_completed_sub (oracle : String → Bool) (st : SessionSt)
    (layer : SessionLayer) :
    ∀ x ∈ (execute_layer oracle st layer).1.completed_tasks,
      x ∈ st.completed_tasks ∨ ∃ t ∈ layer.tasks, x = t.task_id := by
  intro x hx
  unfold execute_layer at hx
  rcases foldl_launch_completed_sub oracle _ st x hx with h | ⟨t, ht, rfl⟩
  · exact Or.inl h
  · exact Or.inr ⟨t, List.mem_of_mem_filter ht, rfl⟩

theorem run_layers_cons_some (oracle : String → Bool) (layer : SessionLayer)
    (rest : List SessionLayer) (st : SessionSt) (td : String × String)
    (h : find_unsatisfied st.completed_tasks layer.tasks = some td) :
    run_layers oracle (layer :: rest) st =
      { st with execution_errors := st.execution_errors ++
          [unsatisfiedMessage td.1 td.2] } := by
  rw [run_layers, h]

theorem run_layers_cons_none (oracle : String → Bool) (layer : SessionLayer)
    (rest : List SessionLayer) (st : SessionSt)
    (h : find_unsatisfied st.completed_tasks layer.tasks = none) :
    run_layers oracle (layer :: rest) st =
      run_layers oracle rest (execute_layer oracle st layer).1 := by
  rw [run_layers, h]
  simp

theorem layersTaskCount_cons (layer : SessionLayer) (rest : List SessionLayer) :
    layersTaskCount (layer :: rest) = layer.tasks.length + layersTaskCount rest := by
  simp [layersTaskCount]

theorem layersTaskIds_cons (layer : SessionLayer) (rest : List SessionLayer) :
    layersTaskIds (layer :: rest) =
      layer.tasks.map (fun t => t.task_id) ++ layersTaskIds rest := by
  simp [layersTaskIds]

theorem run_layers_card_le (oracle : String → Bool) (ls : List SessionLayer) :
    ∀ st : SessionSt,
      (run_layers oracle ls st).completed_tasks.length +
        (run_layers oracle ls st).failed_tasks.length ≤
        st.completed_tasks.length + st.failed_tasks.length + layersTaskCount ls := by
  induction ls with
  | nil => intro st; simp [run_layers, layersTaskCount]
  | cons layer rest ih =>
      intro st
      rw [layersTaskCount_cons]
      cases hfu : find_unsatisfied st.completed_tasks layer.tasks with
      | some td =>
          rw [run_layers_cons_some oracle layer rest st td hfu]
          simp only []
          omega
      | none =>
          rw [run_layers_cons_none oracle layer rest st hfu]
          have h1 := ih (execute_layer oracle st layer).1
          have h2 := execute_layer_card_le oracle st layer
          omega

theorem run_layers_abort_card_lt (oracle : String → Bool) (ls : List SessionLayer) :
    ∀ st : SessionSt, (∀ l ∈ ls, l.tasks ≠ []) →
      (run_layers oracle ls st).execution_errors ≠ st.execution_errors →
      (run_layers oracle ls st).completed_tasks.length +
        (run_layers oracle ls st).failed_tasks.length <
        st.completed_tasks.length + st.failed_tasks.length + layersTaskCount ls := by
  induction ls with
  | nil =>
      intro st _ herr
      exact absurd rfl herr
  | cons layer rest ih =>
      intro st hne herr
      rw [layersTaskCount_cons]
      cases hfu : find_unsatisfied st.completed_tasks layer.tasks with
      | some td =>
          rw [run_layers_cons_some oracle layer rest st td hfu]
          simp only []
          have hlen : layer.tasks.length ≠ 0 := by
            intro h0
            exact hne layer (List.mem_cons_self _ _) (List.length_eq_zero.mp h0)
          omega
      | none =>
          rw [run_layers_cons_none oracle layer rest st hfu] at herr ⊢
          have herr' : (run_layers oracle rest (execute_layer oracle st layer).1).execution_errors ≠
              (execute_layer oracle st layer).1.execution_errors := by
            rw [execute_layer_errors oracle st layer]
            exact herr
          have h1 := ih (execute_layer oracle st layer).1
            (fun l hl => hne l (List.mem_cons_of_mem _ hl)) herr'
          have h2 := execute_layer_card_le oracle st layer
          omega

theorem run_layers_complete_card (oracle : String → Bool) (ls : List SessionLayer) :
    ∀ st : SessionSt,
      (layersTaskIds ls).Nodup →
      (∀ x ∈ layersTaskIds ls, x ∉ st.completed_tasks) →
      (run_layers oracle ls st).execution_errors = st.execution_errors →
      (run_layers oracle ls st).completed_tasks.length +
        (run_layers oracle ls st).failed_tasks.length =
        st.completed_tasks.length + st.failed_tasks.length + layersTaskCount ls := by
  induction ls with
  | nil => intro st _ _ _; simp [run_layers, layersTaskCount]
  | cons layer rest ih =>
      intro st hnodup hdisj herr
      rw [layersTaskIds_cons] at hnodup hdisj
      rw [layersTaskCount_cons]
      cases hfu : find_unsatisfied st.completed_tasks layer.tasks with
      | some td =>
          exfalso
          rw [run_layers_cons_some oracle layer rest st td hfu] at herr
          simp only [] at herr
          have := congrArg List.length herr
          simp at this
      | none =>
          rw [run_layers_cons_none oracle layer rest st hfu] at herr ⊢
          have hlayer_disj : ∀ t ∈ layer.tasks,
              st.completed_tasks.contains t.task_id = false := by
            intro t ht
            have hx : t.task_id ∈ layer.tasks.map (fun t => t.task_id) ++ layersTaskIds rest :=
              List.mem_append_left _ (List.mem_map_of_mem _ ht)
            have := hdisj _ hx
            simpa using this
          have hcard := execute_layer_card_eq oracle st layer hlayer_disj
          have hnodup_rest : (layersTaskIds rest).Nodup :=
            (List.nodup_append.mp hnodup).2.1
          have hdisj_parts :=
            (List.nodup_append.mp hnodup).2.2
          have hdisj_rest : ∀ x ∈ layersTaskIds rest,
              x ∉ (execute_layer oracle st layer).1.completed_tasks := by
            intro x hx hmem
            rcases execute_layer_completed_sub oracle st layer x hmem with h | ⟨t, ht, rfl⟩
            · exact hdisj x (List.mem_append_right _ hx) h
            · exact hdisj_parts (List.mem_map_of_mem _ ht) hx
          have herr' : (run_layers oracle rest (execute_layer oracle st layer).1).execution_errors =
              (execute_layer oracle st layer).1.execution_errors := by
            rw [execute_layer_errors oracle st layer]
            exact herr
          have := ih (execute_layer oracle st layer).1 hnodup_rest hdisj_rest herr'
          omega

/-! ## C4 -/

unseal Rat.inv Rat.mul Rat.add Rat.sub Rat.ofScientific in
/-- C4 fails on the code: the halt condition at
`parallel_orchestrator.py` line 331 also requires
`execution_layers[layer_index:]` (a slice that always contains the
current layer) to be empty, so the loop never breaks on a low success
rate.  Concretely, layer 0 of `haltGraph` completes with success rate 0
(`process_layer_results 0 1 = false`, far below the 80% threshold), yet
the task `b` of layer 1 is still launched and completes. -/
theorem low_success_rate_does_not_halt :
    process_layer_results 0 1 = false ∧
    run_layers haltOracle haltGraph.execution_layers SessionSt.init =
      ⟨["b"], ["a"], []⟩ ∧
    "b" ∈ (run_layers haltOracle haltGraph.execution_layers SessionSt.init).completed_tasks := by
  decide

/-- C4 (amended): a layer's success rate never halts the loop.  Whenever
the run records no dependency-verification error, every task of every
layer — later layers included, whatever the earlier success rates — is
launched and recorded as completed or failed. -/
theorem low_success_rate_continues (g : SessionGraph) (oracle : String → Bool)
    (hnodup : (layersTaskIds g.execution_layers).Nodup)
    (herr : (run_layers oracle g.execution_layers SessionSt.init).execution_errors = []) :
    (run_layers oracle g.execution_layers SessionSt.init).completed_tasks.length +
      (run_layers oracle g.execution_layers SessionSt.init).failed_tasks.length =
      layersTaskCount g.execution_layers := by
  have := run_layers_complete_card oracle g.execution_layers SessionSt.init hnodup
    (by intro x _ hx; simp [SessionSt.init] at hx) (by simpa [SessionSt.init] using herr)
  simpa [SessionSt.init] using this

unseal Rat.inv Rat.mul Rat.add Rat.sub Rat.ofScientific in
theorem low_success_rate_continues_witness :
    (layersTaskIds haltGraph.execution_layers).Nodup ∧
    (run_layers haltOracle haltGraph.execution_layers SessionSt.init).execution_errors = [] ∧
    (run_layers haltOracle haltGraph.execution_layers SessionSt.init).completed_tasks.length +
      (run_layers haltOracle haltGraph.execution_layers SessionSt.init).failed_tasks.length =
      layersTaskCount haltGraph.execution_layers :=
  ⟨by decide, by decide, low_success_rate_continues haltGraph haltOracle (by decide) (by decide)⟩

/-! ## C3 -/

/-- C3: a session that finishes (its final result is constructed, so it
was neither cancelled nor aborted by an exception during result assembly)
ends in state `COMPLETED` or `FAILED`, and in `COMPLETED` exactly when
the successful-task count equals the total task count and no task failed.
Hypotheses: layers are nonempty (the `ExecutionLayer` pydantic validator),
task ids are distinct across layers (the layering invariant), and
`total_tasks` counts the layered tasks. -/
theorem create_execution_result_ok (g : SessionGraph) (st : SessionSt)
    (r : ExecutionResultM) (h : create_execution_result g st = Except.ok r) :
    r.successful_tasks = st.completed_tasks.length ∧
    r.failed_tasks = st.failed_tasks.length ∧
    r.total_tasks = g.total_tasks ∧
    r.error_summary = st.execution_errors := by
  unfold create_execution_result at h
  split_ifs at h
  all_goals first
    | exact Except.noConfusion h
    | (cases Except.ok.inj h; exact ⟨rfl, rfl, rfl, rfl⟩)

theorem session_terminal_state (g : SessionGraph) (oracle : String → Bool)
    (hlayers : ∀ l ∈ g.execution_layers, l.tasks ≠ [])
    (_hnodup : (layersTaskIds g.execution_layers).Nodup)
    (htotal : g.total_tasks = layersTaskCount g.execution_layers)
    (state : OrchestrationState) (r : ExecutionResultM)
    (hrun : execute_session g oracle = Except.ok (state, r)) :
    (state = OrchestrationState.completed ∨ state = OrchestrationState.failed) ∧
    (state = OrchestrationState.completed ↔
      (r.successful_tasks = r.total_tasks ∧ r.failed_tasks = 0)) := by
  unfold execute_session at hrun
  cases hcr : create_execution_result g
      (run_layers oracle g.execution_layers SessionSt.init) with
  | error e =>
      rw [hcr] at hrun
      exact Except.noConfusion hrun
  | ok r' =>
      rw [hcr] at hrun
      replace hrun : (if r'.is_successful = true then
          Except.ok (OrchestrationState.completed, r')
        else Except.ok (OrchestrationState.failed, r')) =
          Except.ok (state, r) := hrun
      obtain ⟨hsuc_eq, hfail_eq, htot_eq, herr_eq⟩ :=
        create_execution_result_ok g _ r' hcr
      by_cases hsucc : r'.is_successful = true
      · rw [if_pos hsucc] at hrun
        simp only [Except.ok.injEq, Prod.mk.injEq] at hrun
        obtain ⟨hstate, hr⟩ := hrun
        subst hstate
        subst hr
        unfold ExecutionResultM.is_successful at hsucc
        simp only [Bool.and_eq_true, beq_iff_eq, List.length_eq_zero] at hsucc
        refine ⟨Or.inl rfl, ?_, fun _ => rfl⟩
        intro _
        exact ⟨hsucc.1.2, hsucc.1.1⟩
      · rw [if_neg hsucc] at hrun
        simp only [Except.ok.injEq, Prod.mk.injEq] at hrun
        obtain ⟨hstate, hr⟩ := hrun
        subst hstate
        subst hr
        refine ⟨Or.inr rfl, ?_, ?_⟩
        · intro hcon
          cases hcon
        · rintro ⟨hsuc, hfail⟩
          exfalso
          apply hsucc
          unfold ExecutionResultM.is_successful
          simp only [Bool.and_eq_true, beq_iff_eq, List.length_eq_zero]
          refine ⟨⟨hfail, hsuc⟩, ?_⟩
          rw [herr_eq]
          by_contra herrne
          have hlt := run_layers_abort_card_lt oracle g.execution_layers SessionSt.init
            hlayers (by simpa [SessionSt.init] using herrne)
          rw [hsuc_eq, htot_eq, htotal] at hsuc
          rw [hfail_eq] at hfail
          simp only [SessionSt.init, List.length_nil] at hlt hsuc hfail
          omega

unseal Rat.inv Rat.mul Rat.add Rat.sub Rat.ofScientific in
theorem session_terminal_state_witness :
    (∀ l ∈ okGraph.execution_layers, l.tasks ≠ []) ∧
    okGraph.total_tasks = layersTaskCount okGraph.execution_layers ∧
    execute_session okGraph allSucceed =
      Except.ok (OrchestrationState.completed, ⟨2, 2, 0, 0, []⟩) ∧
    ((OrchestrationState.completed = OrchestrationState.completed ∨
      OrchestrationState.completed = OrchestrationState.failed) ∧
     (OrchestrationState.completed = OrchestrationState.completed ↔
       ((⟨2, 2, 0, 0, []⟩ : ExecutionResultM).successful_tasks =
          (⟨2, 2, 0, 0, []⟩ : ExecutionResultM).total_tasks ∧
        (⟨2, 2, 0, 0, []⟩ : ExecutionResultM).failed_tasks = 0))) :=
  ⟨by decide, by decide, rfl,
   session_terminal_state okGraph allSucceed (by decide) (by decide) (by decide)
     OrchestrationState.completed ⟨2, 2, 0, 0, []⟩ rfl⟩

/-! ## C5 -/

/-- C5: when the worker reports success but the quality validation does
not pass all four gates, `_execute_single_task` records a *failed* task
result carrying a `quality_gate_failure` error detail whose
`failed_gates` list contains exactly the gates — among tdd, security,
performance, code_quality — whose predicate did not pass. -/
theorem quality_gate_downgrade (t : SessionTask) (env : TaskEnv) (aid : String)
    (outcome : AgentExecOutcome) (q : QualityResult)
    (hacq : env.acquire = Except.ok aid)
    (hexec : env.agent_exec = Except.ok outcome)
    (hsucc : outcome.success = true)
    (hq : env.quality = Except.ok q)
    (hfail : q.all_quality_gates_passed = false) :
    execute_single_task true t env =
      { task_id := t.task_id, status := TaskExecutionStatus.failed,
        agent_id := aid, quality_validation := some q,
        error_details := some (ErrorDetails.quality_gate_failure
          (failed_gates_list q)) } ∧
    failed_gates_list q ≠ [] ∧
    ∀ gate, gate ∈ failed_gates_list q ↔
      ((gate = "tdd" ∧ q.tdd_validation.meets_requirements = false) ∨
       (gate = "security" ∧
         q.security_validation.meets_security_requirements = false) ∨
       (gate = "performance" ∧
         q.performance_validation.performance_requirements_met = false) ∨
       (gate = "code_quality" ∧
         q.code_quality_validation.meets_quality_standards = false)) := by
  refine ⟨?_, ?_, ?_⟩
  · unfold execute_single_task execute_single_task_body
    rw [hacq, hexec, hq]
    simp [hsucc, apply_quality_gates, hfail, Except.bind, bind, pure, Except.pure]
  · intro hnil
    cases h1 : q.tdd_validation.meets_requirements <;>
      cases h2 : q.security_validation.meets_security_requirements <;>
        cases h3 : q.performance_validation.performance_requirements_met <;>
          cases h4 : q.code_quality_validation.meets_quality_standards <;>
            simp_all [failed_gates_list, QualityResult.all_quality_gates_passed]
  · intro gate
    cases h1 : q.tdd_validation.meets_requirements <;>
      cases h2 : q.security_validation.meets_security_requirements <;>
        cases h3 : q.performance_validation.performance_requirements_met <;>
          cases h4 : q.code_quality_validation.meets_quality_standards <;>
            simp [failed_gates_list, h1, h2, h3, h4]

theorem quality_gate_downgrade_witness :
    downgradeEnv.acquire = Except.ok "dev_agent_0" ∧
    coverageShortQuality.all_quality_gates_passed = false ∧
    failed_gates_list coverageShortQuality = ["tdd"] ∧
    (execute_single_task true ⟨"task-1", []⟩ downgradeEnv =
      { task_id := "task-1", status := TaskExecutionStatus.failed,
        agent_id := "dev_agent_0",
        quality_validation := some coverageShortQuality,
        error_details := some (ErrorDetails.quality_gate_failure
          (failed_gates_list coverageShortQuality)) } ∧
     failed_gates_list coverageShortQuality ≠ [] ∧
     ∀ gate, gate ∈ failed_gates_list coverageShortQuality ↔
       ((gate = "tdd" ∧
          coverageShortQuality.tdd_validation.meets_requirements = false) ∨
        (gate = "security" ∧
          coverageShortQuality.security_validation.meets_security_requirements = false) ∨
        (gate = "performance" ∧
          coverageShortQuality.performance_validation.performance_requirements_met = false) ∨
        (gate = "code_quality" ∧
          coverageShortQuality.code_quality_validation.meets_quality_standards = false))) :=
  ⟨rfl, by decide, by decide,
   quality_gate_downgrade ⟨"task-1", []⟩ downgradeEnv "dev_agent_0" ⟨true, ""⟩
     coverageShortQuality rfl rfl rfl rfl (by decide)⟩

/-! ## C7 -/

/-- C7: within a layer's fan-out every task yields exactly one recorded
task result; a task's result depends only on that task's own execution
environment (so a sibling's exception cannot change it or prevent it from
being recorded); and any exception raised along a task's execution path
is converted into a failed task result carrying the stringified error —
it never escapes `_execute_single_task`. -/
theorem task_errors_never_propagate (qe : Bool) (tasks : List SessionTask)
    (env env' : String → TaskEnv) (i : Nat) (hi : i < tasks.length)
    (hagree : env' ((tasks.get ⟨i, hi⟩).task_id) = env ((tasks.get ⟨i, hi⟩).task_id)) :
    (execute_layer_results qe tasks env).length = tasks.length ∧
    (execute_layer_results qe tasks env')[i]? =
      (execute_layer_results qe tasks env)[i]? ∧
    ∀ e, execute_single_task_body qe (tasks.get ⟨i, hi⟩)
        (env ((tasks.get ⟨i, hi⟩).task_id)) = Except.error e →
      (execute_layer_results qe tasks env)[i]? = some
        { task_id := (tasks.get ⟨i, hi⟩).task_id,
          status := TaskExecutionStatus.failed, agent_id := "unknown",
          quality_validation := none,
          error_details := some (ErrorDetails.plain e) } := by
  refine ⟨by simp [execute_layer_results], ?_, ?_⟩
  · simp only [execute_layer_results, List.getElem?_map, List.getElem?_eq_getElem hi]
    show some (execute_single_task qe (tasks.get ⟨i, hi⟩)
        (env' ((tasks.get ⟨i, hi⟩).task_id))) =
      some (execute_single_task qe (tasks.get ⟨i, hi⟩)
        (env ((tasks.get ⟨i, hi⟩).task_id)))
    rw [hagree]
  · intro e he
    simp only [execute_layer_results, List.getElem?_map, List.getElem?_eq_getElem hi]
    show some (execute_single_task qe (tasks.get ⟨i, hi⟩)
        (env ((tasks.get ⟨i, hi⟩).task_id))) = _
    unfold execute_single_task
    rw [he]

theorem task_errors_never_propagate_witness :
    0 < twoTasks.length ∧
    (execute_layer_results true twoTasks boomEnv).length = twoTasks.length ∧
    (execute_layer_results true twoTasks boomEnvVariant)[0]? =
      (execute_layer_results true twoTasks boomEnv)[0]? ∧
    (execute_layer_results true twoTasks boomEnv)[0]? = some
      { task_id := "t1", status := TaskExecutionStatus.failed,
        agent_id := "unknown", quality_validation := none,
        error_details := some (ErrorDetails.plain "boom") } :=
  ⟨by decide,
   (task_errors_never_propagate true twoTasks boomEnv boomEnvVariant 0
     (by decide) rfl).1,
   (task_errors_never_propagate true twoTasks boomEnv boomEnvVariant 0
     (by decide) rfl).2.1,
   (task_errors_never_propagate true twoTasks boomEnv boomEnvVariant 0
     (by decide) rfl).2.2 "boom" rfl⟩

/-! ## C1 -/

theorem exists_rank_min (rank : String → Nat) :
    ∀ (l : List String), l ≠ [] → ∃ x ∈ l, ∀ y ∈ l, rank x ≤ rank y := by
  intro l
  induction l with
  | nil => intro h; exact absurd rfl h
  | cons a as ih =>
      intro _
      cases as with
      | nil =>
          refine ⟨a, List.mem_cons_self _ _, ?_⟩
          intro y hy
          simp only [List.mem_singleton] at hy
          subst hy
          exact le_refl _
      | cons b bs =>
          obtain ⟨x, hx, hmin⟩ := ih (List.cons_ne_nil _ _)
          by_cases h : rank a ≤ rank x
          · refine ⟨a, List.mem_cons_self _ _, ?_⟩
            intro y hy
            rcases List.mem_cons.mp hy with rfl | hy
            · exact le_refl _
            · exact h.trans (hmin y hy)
          · refine ⟨x, List.mem_cons_of_mem _ hx, ?_⟩
            intro y hy
            rcases List.mem_cons.mp hy with rfl | hy
            · exact (not_le.mp h).le
            · exact hmin y hy

theorem layerIndexOf_cons_pos (l : List String) (ls : List (List String))
    (t : String) (h : l.contains t = true) :
    layerIndexOf (l :: ls) t = some 0 := by
  simp only [layerIndexOf]
  rw [if_pos h]

theorem layerIndexOf_cons_neg (l : List String) (ls : List (List String))
    (t : String) (h : l.contains t = false) :
    layerIndexOf (l :: ls) t = (layerIndexOf ls t).map (fun i => i + 1) := by
  simp only [layerIndexOf]
  rw [if_neg (by rw [h]; simp)]

theorem layerIndexOf_of_exists (t : String) :
    ∀ (layers : List (List String)),
      (∃ l ∈ layers, l.contains t = true) →
      ∃ i, layerIndexOf layers t = some i := by
  intro layers
  induction layers with
  | nil => rintro ⟨l, hl, _⟩; simp at hl
  | cons l ls ih =>
      rintro ⟨l', hl', hcl'⟩
      cases hc : l.contains t with
      | true => exact ⟨0, layerIndexOf_cons_pos l ls t hc⟩
      | false =>
          have hl'_tail : l' ∈ ls := by
            rcases List.mem_cons.mp hl' with rfl | h
            · rw [hc] at hcl'; exact absurd hcl' (by simp)
            · exact h
          obtain ⟨i, hi⟩ := ih ⟨l', hl'_tail, hcl'⟩
          refine ⟨i + 1, ?_⟩
          rw [layerIndexOf_cons_neg l ls t hc, hi]
          rfl

theorem frontier_ready (deps : List TaskDependency) (rank : String → Nat)
    (hrank : ∀ d ∈ deps, d.is_blocking = true →
      rank d.to_task_id < rank d.from_task_id)
    (remaining : List String) (x0 : String)
    (hx0min : ∀ y ∈ remaining, rank x0 ≤ rank y) :
    blockingInDegree deps remaining x0 = 0 := by
  by_contra hdeg
  have hpos : 0 < (deps.filter (fun d =>
      d.is_blocking && d.from_task_id == x0 &&
        remaining.contains d.to_task_id)).length :=
    Nat.pos_of_ne_zero hdeg
  obtain ⟨d, hd⟩ := List.exists_mem_of_ne_nil _ (List.ne_nil_of_length_pos hpos)
  obtain ⟨hdmem, hdpred⟩ := List.mem_filter.mp hd
  simp only [Bool.and_eq_true, beq_iff_eq] at hdpred
  obtain ⟨⟨hb, hfrom⟩, hto⟩ := hdpred
  have hto_mem : d.to_task_id ∈ remaining := by simpa using hto
  have h1 := hrank d hdmem hb
  have h2 := hx0min _ hto_mem
  rw [hfrom] at h1
  omega

theorem gel_aux_spec (deps : List TaskDependency) (rank : String → Nat)
    (hrank : ∀ d ∈ deps, d.is_blocking = true →
      rank d.to_task_id < rank d.from_task_id) :
    ∀ (fuel : Nat) (remaining : List String), remaining.length ≤ fuel →
      ∃ layers, generate_execution_layers_aux deps fuel remaining = Except.ok layers ∧
        (∀ t ∈ remaining, layers.countP (fun l => l.contains t) = 1) ∧
        (∀ l ∈ layers, ∀ x ∈ l, x ∈ remaining) ∧
        (∀ d ∈ deps, d.is_blocking = true →
          d.from_task_id ∈ remaining → d.to_task_id ∈ remaining →
          ∃ i j, layerIndexOf layers d.from_task_id = some i ∧
                 layerIndexOf layers d.to_task_id = some j ∧ j < i) := by
  intro fuel
  induction fuel with
  | zero =>
      intro remaining hlen
      have hnil : remaining = [] := List.length_eq_zero.mp (Nat.le_zero.mp hlen)
      subst hnil
      refine ⟨[], rfl, ?_, ?_, ?_⟩
      · intro t ht; simp at ht
      · intro l hl; simp at hl
      · intro d _ _ hfr; simp at hfr
  | succ fuel ih =>
      intro remaining hlen
      by_cases hre : remaining = []
      · subst hre
        refine ⟨[], rfl, ?_, ?_, ?_⟩
        · intro t ht; simp at ht
        · intro l hl; simp at hl
        · intro d _ _ hfr; simp at hfr
      · obtain ⟨x0, hx0mem, hx0min⟩ := exists_rank_min rank remaining hre
        have hx0deg : blockingInDegree deps remaining x0 = 0 :=
          frontier_ready deps rank hrank remaining x0 hx0min
        have hx0cur : x0 ∈ remaining.filter
            (fun t => blockingInDegree deps remaining t == 0) := by
          refine List.mem_filter.mpr ⟨hx0mem, ?_⟩
          simp [hx0deg]
        have hcur_ne : remaining.filter
            (fun t => blockingInDegree deps remaining t == 0) ≠ [] :=
          List.ne_nil_of_mem hx0cur
        have hx0c : (remaining.filter
            (fun t => blockingInDegree deps remaining t == 0)).contains x0 = true := by
          simpa using hx0cur
        have hrest_len : (remaining.filter (fun t =>
            !((remaining.filter
              (fun t => blockingInDegree deps remaining t == 0)).contains t))).length <
            remaining.length := by
          apply List.length_filter_lt_length_iff_exists.mpr
          exact ⟨x0, hx0mem, by simp [hx0mem, hx0deg]⟩
        obtain ⟨layers', heq', hcount', hsub', hord'⟩ :=
          ih (remaining.filter (fun t =>
            !((remaining.filter
              (fun t => blockingInDegree deps remaining t == 0)).contains t)))
            (by omega)
        have heq : generate_execution_layers_aux deps (fuel + 1) remaining =
            Except.ok ((remaining.filter
              (fun t => blockingInDegree deps remaining t == 0)) :: layers') := by
          rw [generate_execution_layers_aux]
          rw [if_neg (by simp [hre]), if_neg (by simp [hcur_ne])]
          simp only [heq']
        refine ⟨_, heq, ?_, ?_, ?_⟩
        · -- every task of `remaining` lies in exactly one layer
          intro t ht
          by_cases hct : t ∈ remaining.filter
              (fun t => blockingInDegree deps remaining t == 0)
          · have hc : (remaining.filter
                (fun t => blockingInDegree deps remaining t == 0)).contains t = true := by
              simpa using hct
            have hzero : layers'.countP (fun l => l.contains t) = 0 := by
              apply List.countP_eq_zero.mpr
              intro l hl
              simp only [Bool.not_eq_true]
              by_contra hcl
              have hcl' : l.contains t = true := by
                cases hcontains : l.contains t
                · exact absurd hcontains hcl
                · rfl
              have htl : t ∈ l := by simpa using hcl'
              have htrest := hsub' l hl t htl
              have := (List.mem_filter.mp htrest).2
              simp [hc] at this
              rcases this with h' | h'
              · exact h' ht
              · exact h' (by simpa using (List.mem_filter.mp hct).2)
            rw [List.countP_cons, hzero]
            simp only [hc, if_true]
          · have hc : (remaining.filter
                (fun t => blockingInDegree deps remaining t == 0)).contains t = false := by
              simpa using hct
            have htrest : t ∈ remaining.filter (fun t =>
                !((remaining.filter
                  (fun t => blockingInDegree deps remaining t == 0)).contains t)) :=
              List.mem_filter.mpr ⟨ht, by simp only [hc, Bool.not_false]⟩
            rw [List.countP_cons]
            simp only [hc, Bool.false_eq_true, if_false, Nat.add_zero]
            exact hcount' t htrest
        · -- layers only hold tasks of `remaining`
          intro l hl x hx
          rcases List.mem_cons.mp hl with rfl | hl'
          · exact List.mem_of_mem_filter hx
          · exact List.mem_of_mem_filter (hsub' l hl' x hx)
        · -- blocking edges point to strictly earlier layers
          intro d hd hb hfr hto
          have hfrom_not_cur : d.from_task_id ∉ remaining.filter
              (fun t => blockingInDegree deps remaining t == 0) := by
            intro hin
            have hdeg0 : blockingInDegree deps remaining d.from_task_id = 0 := by
              have := (List.mem_filter.mp hin).2
              simpa using this
            have hd_in : d ∈ deps.filter (fun d' =>
                d'.is_blocking && d'.from_task_id == d.from_task_id &&
                  remaining.contains d'.to_task_id) :=
              List.mem_filter.mpr ⟨hd, by simp [hb, hto]⟩
            have hpos : 0 < (deps.filter (fun d' =>
                d'.is_blocking && d'.from_task_id == d.from_task_id &&
                  remaining.contains d'.to_task_id)).length :=
              List.length_pos_of_mem hd_in
            unfold blockingInDegree at hdeg0
            omega
          have hcf : (remaining.filter
              (fun t => blockingInDegree deps remaining t == 0)).contains
                d.from_task_id = false := by
            simpa using hfrom_not_cur
          have hfrom_rest : d.from_task_id ∈ remaining.filter (fun t =>
              !((remaining.filter
                (fun t => blockingInDegree deps remaining t == 0)).contains t)) :=
            List.mem_filter.mpr ⟨hfr, by simp only [hcf, Bool.not_false]⟩
          by_cases hto_cur : d.to_task_id ∈ remaining.filter
              (fun t => blockingInDegree deps remaining t == 0)
          · have hct : (remaining.filter
                (fun t => blockingInDegree deps remaining t == 0)).contains
                  d.to_task_id = true := by
              simpa using hto_cur
            have hcp := hcount' _ hfrom_rest
            have hex : ∃ l ∈ layers', l.contains d.from_task_id = true := by
              have hpos : 0 < layers'.countP (fun l => l.contains d.from_task_id) := by
                omega
              obtain ⟨l, hl, hpl⟩ := List.countP_pos_iff.mp hpos
              exact ⟨l, hl, hpl⟩
            obtain ⟨i', hi'⟩ := layerIndexOf_of_exists d.from_task_id layers' hex
            refine ⟨i' + 1, 0, ?_, ?_, Nat.succ_pos i'⟩
            · rw [layerIndexOf_cons_neg _ _ _ hcf, hi']
              rfl
            · exact layerIndexOf_cons_pos _ _ _ hct
          · have hct : (remaining.filter
                (fun t => blockingInDegree deps remaining t == 0)).contains
                  d.to_task_id = false := by
              simpa using hto_cur
            have hto_rest : d.to_task_id ∈ remaining.filter (fun t =>
                !((remaining.filter
                  (fun t => blockingInDegree deps remaining t == 0)).contains t)) :=
              List.mem_filter.mpr ⟨hto, by simp only [hct, Bool.not_false]⟩
            obtain ⟨i', j', hif, hjt, hlt⟩ := hord' d hd hb hfrom_rest hto_rest
            refine ⟨i' + 1, j' + 1, ?_, ?_, Nat.succ_lt_succ hlt⟩
            · rw [layerIndexOf_cons_neg _ _ _ hcf, hif]
              rfl
            · rw [layerIndexOf_cons_neg _ _ _ hct, hjt]
              rfl

/-- C1: for an acyclic blocking-edge graph — witnessed by a rank function
decreasing along blocking edges, equivalent to acyclicity — whose blocking
edges run between listed tasks (guaranteed by the preceding endpoint
validation), `_generate_execution_layers` succeeds, places every task in
exactly one execution layer, and for every blocking edge the layer index
of the depended-upon task (`to_task_id`) is strictly smaller than the
layer index of the dependent task (`from_task_id`). -/
theorem generate_execution_layers_correct (deps : List TaskDependency)
    (tasks : List String) (rank : String → Nat)
    (hrank : ∀ d ∈ deps, d.is_blocking = true →
      rank d.to_task_id < rank d.from_task_id)
    (hends : ∀ d ∈ deps, d.is_blocking = true →
      d.from_task_id ∈ tasks ∧ d.to_task_id ∈ tasks) :
    ∃ layers, generate_execution_layers deps tasks = Except.ok layers ∧
      (∀ t ∈ tasks, layers.countP (fun l => l.contains t) = 1) ∧
      (∀ d ∈ deps, d.is_blocking = true →
        ∃ i j, layerIndexOf layers d.from_task_id = some i ∧
               layerIndexOf layers d.to_task_id = some j ∧ j < i) := by
  obtain ⟨layers, heq, hcount, _hsub, hord⟩ :=
    gel_aux_spec deps rank hrank tasks.length tasks (le_refl _)
  exact ⟨layers, heq, hcount, fun d hd hb =>
    hord d hd hb (hends d hd hb).1 (hends d hd hb).2⟩

theorem generate_execution_layers_correct_witness :
    (∀ d ∈ scheduleDeps, d.is_blocking = true →
      scheduleRank d.to_task_id < scheduleRank d.from_task_id) ∧
    (∀ d ∈ scheduleDeps, d.is_blocking = true →
      d.from_task_id ∈ scheduleTasks ∧ d.to_task_id ∈ scheduleTasks) ∧
    generate_execution_layers scheduleDeps scheduleTasks =
      Except.ok [["a", "c"], ["b"], ["d"]] ∧
    (∃ layers, generate_execution_layers scheduleDeps scheduleTasks = Except.ok layers ∧
      (∀ t ∈ scheduleTasks, layers.countP (fun l => l.contains t) = 1) ∧
      (∀ d ∈ scheduleDeps, d.is_blocking = true →
        ∃ i j, layerIndexOf layers d.from_task_id = some i ∧
               layerIndexOf layers d.to_task_id = some j ∧ j < i)) :=
  ⟨by decide, by decide, rfl,
   generate_execution_layers_correct scheduleDeps scheduleTasks scheduleRank
     (by decide) (by decide)⟩

/-! ## C2 -/

/-- C2 names a real code defect: on a task set whose blocking-edge
subgraph is cyclic (here a two-task file-dependency cycle),
`_validate_dependency_graph` does raise `CircularDependencyError`
exactly as the docstring of `analyze_task_dependencies` promises — but
the blanket `except Exception` in `analyze_task_dependencies`
(`dependency_analyzer.py` lines 86-88) catches that exception (a subclass
of `DependencyAnalysisError` ⊂ `Exception`) and re-raises a *plain*
`DependencyAnalysisError` wrapping its message, so the public function
never raises `CircularDependencyError`.  Execution-layer generation is
never attempted: no graph is returned. -/
theorem analyze_cycle_wrapped :
    validate_dependency_graph
        ⟨["t1", "t2"], [⟨"t2", "t1", true⟩, ⟨"t1", "t2", true⟩]⟩ ["t1", "t2"] =
      Except.error (AnalysisExn.circularDependencyError
        "Circular dependencies detected in task graph") ∧
    analyze_task_dependencies [fileCycleTaskA, fileCycleTaskB] =
      Except.error (AnalysisExn.dependencyAnalysisError
        "Failed to analyze dependencies: Circular dependencies detected in task graph") ∧
    ∀ m, analyze_task_dependencies [fileCycleTaskA, fileCycleTaskB] ≠
      Except.error (AnalysisExn.circularDependencyError m) := by
  have h1 : analyze_task_dependencies [fileCycleTaskA, fileCycleTaskB] =
      Except.error (AnalysisExn.dependencyAnalysisError
        "Failed to analyze dependencies: Circular dependencies detected in task graph") :=
    rfl
  refine ⟨rfl, h1, ?_⟩
  intro m h
  rw [h1] at h
  exact AnalysisExn.noConfusion (Except.error.inj h)

end Orca
